import Mathlib

/-!
# Verification of the LOBI live-testnet trading core

Shallow embedding of the adaptive decision core of the repository:

* `src/strategy.py` — the pure imbalance-to-signal function;
* `src/run_live.py` — the confirmation (debounce) filter `_confirmed_signal`;
* `src/paper.py` — the paper-trading ledger and `apply_dry_run_trade`;
* `src/risk.py` — the risk/sizing evaluator `evaluate_pending_signal`;
* `src/calibration.py` — the walk-forward threshold calibrator.

Python floats are modelled as exact rationals (`ℚ`); the square root used by
the calibration score is threaded as an explicit parameter `sqrtQ : ℚ → ℚ`
(theorems that need it assume only that it is positive on positive inputs).
Non-finite float inputs (NaN/±inf), where the source checks `math.isfinite`,
are modelled by `Option ℚ` with `none` standing for any non-finite value.
Python strings stay `String`; `deque(maxlen=m)` becomes a list that drops its
oldest elements on overflow.
-/

namespace LOBI

/-! ### src/strategy.py -/

def BUY : String := "BUY"
def SELL : String := "SELL"
def HOLD : String := "HOLD"

def signal_from_imbalance (imbalance threshold : ℚ) : String :=
  if imbalance > threshold then BUY
  else if imbalance < -threshold then SELL
  else HOLD

/-! ### `_confirmed_signal` from src/run_live.py

`signal_history` is `deque(maxlen=confirmation_m)`, newest element last. -/

def dequePush {α : Type} (maxlen : ℕ) (hist : List α) (x : α) : List α :=
  let h := hist ++ [x]
  h.drop (h.length - maxlen)

def confirmed_signal (confirmation_m confirmation_k : ℕ)
    (signal_history : List String) (raw_signal : String) : String × List String :=
  let h := dequePush confirmation_m signal_history raw_signal
  if ¬(raw_signal = BUY ∨ raw_signal = SELL) then (HOLD, h)
  else if confirmation_k ≤ h.count raw_signal then (raw_signal, h)
  else (HOLD, h)

/-- Feed a list of raw signals through the confirmation filter, threading the
history, and collect the confirmed outputs. -/
def run_confirmed (m k : ℕ) (hist : List String) : List String → List String
  | [] => []
  | raw :: rest =>
    let p := confirmed_signal m k hist raw
    p.1 :: run_confirmed m k p.2 rest

/-! ### src/paper.py

The ledger is passed and returned explicitly (the Python code mutates it in
place).  All `ℚ` values are finite, so the `_ensure_finite` guards of the
source never fire in the embedding. -/

structure PaperTradeResult where
  traded : Bool := false
  side : String := ""
  exec_px : ℚ := 0
  executed_qty_btc : ℚ := 0
  trade_notional_usdt : ℚ := 0
  fee_usdt : ℚ := 0
  trade_pnl_usdt : ℚ := 0
deriving DecidableEq, Repr

structure PaperLedger where
  paper_usdt : ℚ
  paper_btc : ℚ
  fee_rate : ℚ
  slippage_bps : ℚ
  initial_equity_usdt : ℚ
  trade_count : ℕ := 0
  win_count : ℕ := 0
  equity_peak_usdt : ℚ := 0
  max_drawdown_usdt : ℚ := 0
deriving DecidableEq, Repr

/-- Model of Python `str.startswith`, over the character list of the
string (the library `String.startsWith` does not reduce in the kernel). -/
def startswith (s p : String) : Bool := decide (s.data.take p.data.length = p.data)

def exec_px_of (best_bid best_ask : ℚ) (side : String) (slippage_bps : ℚ) : ℚ :=
  let slip := max slippage_bps 0 / 10000
  if side = BUY then best_ask * (1 + slip)
  else if side = SELL then best_bid * (1 - slip)
  else 0

def apply_dry_run_trade (ledger : PaperLedger) (action_taken : String)
    (approved : Bool) (side : String)
    (quote_order_qty quantity best_bid best_ask : ℚ) :
    PaperLedger × PaperTradeResult :=
  if approved = false ∨ startswith action_taken "DRY_RUN_" = false then
    (ledger, {})
  else if ¬(side = BUY ∨ side = SELL) then (ledger, {})
  else if best_bid ≤ 0 ∨ best_ask ≤ 0 ∨ best_bid ≥ best_ask then
    (ledger, { side := side })
  else
    let mid := (best_bid + best_ask) / 2
    let px := exec_px_of best_bid best_ask side ledger.slippage_bps
    if px ≤ 0 then (ledger, { side := side, exec_px := px })
    else
      let before_equity := ledger.paper_usdt + ledger.paper_btc * mid
      if side = BUY then
        let spend_usdt := min (max quote_order_qty 0) ledger.paper_usdt
        if spend_usdt ≤ 0 then (ledger, { side := side, exec_px := px })
        else
          let fee_usdt := spend_usdt * ledger.fee_rate
          let net_usdt := max 0 (spend_usdt - fee_usdt)
          let bought_btc := net_usdt / px
          let l1 : PaperLedger :=
            { ledger with
                paper_usdt := ledger.paper_usdt - spend_usdt
                paper_btc := ledger.paper_btc + bought_btc }
          let after_equity := l1.paper_usdt + l1.paper_btc * mid
          let trade_pnl := after_equity - before_equity
          let l2 : PaperLedger :=
            { l1 with
                trade_count := l1.trade_count + 1
                win_count := l1.win_count + (if 0 < trade_pnl then 1 else 0) }
          (l2,
           { traded := true, side := side, exec_px := px
             executed_qty_btc := bought_btc
             trade_notional_usdt := spend_usdt
             fee_usdt := fee_usdt, trade_pnl_usdt := trade_pnl })
      else
        let sell_qty := min (max quantity 0) ledger.paper_btc
        if sell_qty ≤ 0 then (ledger, { side := side, exec_px := px })
        else
          let gross_usdt := sell_qty * px
          let fee_usdt := gross_usdt * ledger.fee_rate
          let net_usdt := gross_usdt - fee_usdt
          let l1 : PaperLedger :=
            { ledger with
                paper_btc := ledger.paper_btc - sell_qty
                paper_usdt := ledger.paper_usdt + net_usdt }
          let after_equity := l1.paper_usdt + l1.paper_btc * mid
          let trade_pnl := after_equity - before_equity
          let l2 : PaperLedger :=
            { l1 with
                trade_count := l1.trade_count + 1
                win_count := l1.win_count + (if 0 < trade_pnl then 1 else 0) }
          (l2,
           { traded := true, side := side, exec_px := px
             executed_qty_btc := sell_qty
             trade_notional_usdt := gross_usdt
             fee_usdt := fee_usdt, trade_pnl_usdt := trade_pnl })

/-- The ledger the C3 example starts from: 1000 USDT, 0 BTC, zero fees and
slippage (`create_paper_ledger` with those settings at any initial mid). -/
def c3Ledger : PaperLedger :=
  { paper_usdt := 1000, paper_btc := 0, fee_rate := 0, slippage_bps := 0
    initial_equity_usdt := 1000, equity_peak_usdt := 1000 }

/-! ### src/risk.py

`imbalance` is `Option ℚ`: `none` models a non-finite float (NaN/±inf), the
only way `math.isfinite` can fail in the source.  `round_down_step` models
`Decimal(str(x))` arithmetic with `ROUND_DOWN`: exact rational division
truncated toward zero (the argument is clamped non-negative first, so
truncation is `Int.floor`). -/

structure SymbolFilters where
  min_qty : ℚ
  max_qty : ℚ
  step_size : ℚ
  min_notional : ℚ
deriving DecidableEq, Repr

structure RiskConfig where
  cooldown_seconds : ℚ
  max_notional_per_trade_usdt : ℚ
  min_notional_per_trade_usdt : ℚ
  max_abs_position_btc : ℚ
  max_consecutive_errors : ℕ
  enable_position_sizing : Bool
  position_sizing_mode : String
deriving DecidableEq, Repr

structure TradeDecision where
  side : String
  approved : Bool
  reject_reason : String := ""
  quote_order_qty : ℚ := 0
  quantity : ℚ := 0
  notional_target_usdt : Option ℚ := some 0
deriving DecidableEq, Repr

def round_down_step (quantity step_size : ℚ) : ℚ :=
  if step_size ≤ 0 then max quantity 0
  else (⌊max quantity 0 / step_size⌋ : ℚ) * step_size

def cooldown_active (now_ts : ℚ) (last_trade_ts : Option ℚ)
    (cooldown_seconds : ℚ) : Bool :=
  match last_trade_ts with
  | none => false
  | some ts => decide (now_ts - ts < cooldown_seconds)

def clamp (value lower upper : ℚ) : ℚ := max lower (min value upper)

def compute_notional_target_usdt (imbalance : Option ℚ) (threshold_used : ℚ)
    (cfg : RiskConfig) : Option ℚ :=
  if cfg.enable_position_sizing = false then
    some cfg.max_notional_per_trade_usdt
  else
    match imbalance with
    | none => none
    | some imb =>
      let abs_imb := clamp |imb| 0 1
      let scale :=
        if cfg.position_sizing_mode = "linear_abs" then abs_imb
        else
          let denom := 1 - threshold_used
          if denom ≤ 0 then 0
          else clamp ((abs_imb - threshold_used) / denom) 0 1
      some (clamp (cfg.max_notional_per_trade_usdt * scale) 0
              cfg.max_notional_per_trade_usdt)

def evaluate_pending_signal (pending_signal : String) (mid : ℚ)
    (imbalance : Option ℚ) (threshold_used : ℚ)
    (position_btc position_usdt : ℚ) (filters : SymbolFilters)
    (now_ts : ℚ) (last_trade_ts : Option ℚ) (cfg : RiskConfig) : TradeDecision :=
  let notional_target := compute_notional_target_usdt imbalance threshold_used cfg
  if ¬(pending_signal = BUY ∨ pending_signal = SELL) then
    { side := pending_signal, approved := false, reject_reason := "hold",
      notional_target_usdt := notional_target }
  else if mid ≤ 0 then
    { side := pending_signal, approved := false, reject_reason := "bad_mid",
      notional_target_usdt := notional_target }
  else if cfg.enable_position_sizing = true ∧ notional_target = none then
    { side := pending_signal, approved := false,
      reject_reason := "invalid_imbalance", notional_target_usdt := some 0 }
  else if cooldown_active now_ts last_trade_ts cfg.cooldown_seconds = true then
    { side := pending_signal, approved := false,
      reject_reason := "cooldown_active", notional_target_usdt := notional_target }
  else
    let quote_qty :=
      if cfg.enable_position_sizing = true then notional_target.getD 0
      else cfg.max_notional_per_trade_usdt
    if cfg.enable_position_sizing = true
        ∧ quote_qty < cfg.min_notional_per_trade_usdt then
      { side := pending_signal, approved := false,
        reject_reason := "notional_below_min",
        notional_target_usdt := some quote_qty }
    else if pending_signal = BUY then
      if quote_qty < filters.min_notional then
        { side := BUY, approved := false,
          reject_reason := "below_min_notional_buy",
          notional_target_usdt := some quote_qty }
      else if position_usdt < quote_qty then
        { side := BUY, approved := false, reject_reason := "insufficient_usdt",
          notional_target_usdt := some quote_qty }
      else
        let est_qty := quote_qty / mid
        if est_qty < filters.min_qty then
          { side := BUY, approved := false, reject_reason := "below_min_qty_buy",
            notional_target_usdt := some quote_qty }
        else if 0 < filters.max_qty ∧ filters.max_qty < est_qty then
          { side := BUY, approved := false, reject_reason := "above_max_qty_buy",
            notional_target_usdt := some quote_qty }
        else if cfg.max_abs_position_btc < position_btc + est_qty then
          { side := BUY, approved := false,
            reject_reason := "max_abs_position_exceeded",
            notional_target_usdt := some quote_qty }
        else if est_qty ≤ 0 then
          { side := BUY, approved := false, reject_reason := "qty_is_zero",
            notional_target_usdt := some quote_qty }
        else
          { side := BUY, approved := true, quote_order_qty := quote_qty,
            quantity := est_qty, notional_target_usdt := some quote_qty }
    else
      let available_btc := max position_btc 0
      if available_btc ≤ 0 then
        { side := SELL, approved := false, reject_reason := "insufficient_btc",
          notional_target_usdt := some quote_qty }
      else
        let max_sell_qty := quote_qty / mid
        let raw_qty := min available_btc max_sell_qty
        let qty := round_down_step raw_qty filters.step_size
        if qty ≤ 0 then
          { side := SELL, approved := false, reject_reason := "rounded_to_zero",
            notional_target_usdt := some quote_qty }
        else if qty < filters.min_qty then
          { side := SELL, approved := false,
            reject_reason := "below_min_qty_sell",
            notional_target_usdt := some quote_qty }
        else if 0 < filters.max_qty ∧ filters.max_qty < qty then
          let qty2 := round_down_step filters.max_qty filters.step_size
          if qty2 < filters.min_qty then
            { side := SELL, approved := false,
              reject_reason := "above_max_qty_sell",
              notional_target_usdt := some quote_qty }
          else if qty2 * mid < filters.min_notional then
            { side := SELL, approved := false,
              reject_reason := "below_min_notional_sell",
              notional_target_usdt := some quote_qty }
          else
            { side := SELL, approved := true, quantity := qty2,
              notional_target_usdt := some quote_qty }
        else if qty * mid < filters.min_notional then
          { side := SELL, approved := false,
            reject_reason := "below_min_notional_sell",
            notional_target_usdt := some quote_qty }
        else
          { side := SELL, approved := true, quantity := qty,
            notional_target_usdt := some quote_qty }

/-! ### src/calibration.py

Floats are `ℚ`.  `math.sqrt` is an explicit parameter `sqrtQ : ℚ → ℚ`;
theorems that depend on it only assume it is positive on positive inputs.
The score value can be the float `±inf` produced by the zero-variance
branch, so scores live in a three-case type `Score` whose order and
subtraction mirror IEEE comparisons on `{-inf} ∪ ℚ ∪ {+inf}` (no NaN can
arise in `_calibrate_threshold`). -/

def WARMUP : String := "WARMUP"
def CALIBRATING : String := "CALIBRATING"
def TRADING : String := "TRADING"
def MODE_WARMUP_THEN_TRADE : String := "warmup_then_trade"
def MODE_ROLLING_WALK_FORWARD : String := "rolling_walk_forward"

structure LabeledObservation where
  imbalance : ℚ
  forward_return : ℚ
deriving DecidableEq, Repr

inductive Score where
  | negInf
  | val (q : ℚ)
  | posInf
deriving DecidableEq, Repr

/-- Float `<` restricted to `{-inf} ∪ ℚ ∪ {+inf}`. -/
def Score.ltB : Score → Score → Bool
  | .negInf, .negInf => false
  | .negInf, _ => true
  | .val _, .negInf => false
  | .val x, .val y => decide (x < y)
  | .val _, .posInf => true
  | .posInf, _ => false

/-- Float subtraction of a finite value from a possibly infinite score. -/
def Score.subQ : Score → ℚ → Score
  | .negInf, _ => .negInf
  | .val x, p => .val (x - p)
  | .posInf, _ => .posInf

/-- Sample mean of a list of returns (`mu = sum(...) / n`). -/
def sample_mean (rs : List ℚ) : ℚ := rs.sum / (rs.length : ℚ)

/-- Sample variance with n−1 denominator
(`var = sum((x - mean)**2) / (n - 1)`). -/
def sample_var (values : List ℚ) (mean : ℚ) : ℚ :=
  (values.map fun x => (x - mean) * (x - mean)).sum / ((values.length : ℚ) - 1)

/-- `_std_sample` from src/calibration.py. -/
def std_sample (sqrtQ : ℚ → ℚ) (values : List ℚ) (mean : ℚ) : ℚ :=
  if values.length ≤ 1 then 0
  else
    let var := sample_var values mean
    if var ≤ 0 then 0 else sqrtQ var

structure Candidate where
  theta_hat : ℚ
  score : Score
  score_adj : Score
  n : ℕ
  trade_rate : ℚ
deriving DecidableEq, Repr

structure CalibrationReport where
  theta_hat : Option ℚ
  score : Score
  score_adj : Score
  n : ℕ
  trade_rate : ℚ
  window_obs : ℕ
  reason : String
  theta_live : Option ℚ := none
deriving DecidableEq, Repr

/-- The signed returns selected by a grid candidate `theta`: observations
with imbalance > θ contribute +forward_return, those with imbalance < −θ
contribute −forward_return, in scan order. -/
def signed_returns (theta : ℚ) (observations : List LabeledObservation) :
    List ℚ :=
  observations.filterMap fun obs =>
    if theta < obs.imbalance then some obs.forward_return
    else if obs.imbalance < -theta then some (-obs.forward_return)
    else none

/-- The per-`theta` body of the grid loop in `_calibrate_threshold`:
`none` when the candidate is skipped (`n < min_trades`). -/
def eval_candidate (sqrtQ : ℚ → ℚ) (window_size min_trades : ℕ) (alpha : ℚ)
    (observations : List LabeledObservation) (theta : ℚ) : Option Candidate :=
  let rs := signed_returns theta observations
  let n := rs.length
  if n < min_trades then none
  else
    let mu := sample_mean rs
    let sd := std_sample sqrtQ rs mu
    let score := if sd = 0 then (if 0 < mu then Score.posInf else Score.negInf)
                 else Score.val (mu / (sd / sqrtQ (n : ℚ)))
    let trade_rate := (n : ℚ) / (window_size : ℚ)
    some { theta_hat := theta, score := score,
           score_adj := score.subQ (alpha * trade_rate),
           n := n, trade_rate := trade_rate }

/-- The running-best update of the grid loop (`best = candidate` exactly
when `candidate["score_adj"] > best["score_adj"]`). -/
def best_step (acc : Option Candidate) (c : Option Candidate) :
    Option Candidate :=
  match c with
  | none => acc
  | some c =>
    match acc with
    | none => some c
    | some b => if Score.ltB b.score_adj c.score_adj then some c else some b

/-- `WalkForwardCalibrator._calibrate_threshold`, with the observation
window and the candidate grid as arguments. -/
def calibrate_threshold (sqrtQ : ℚ → ℚ) (window_size min_trades : ℕ)
    (alpha : ℚ) (grid : List ℚ) (observations : List LabeledObservation) :
    CalibrationReport :=
  if observations.length < window_size then
    { theta_hat := none, score := .negInf, score_adj := .negInf, n := 0,
      trade_rate := 0, window_obs := observations.length,
      reason := "insufficient_window" }
  else if grid = [] then
    { theta_hat := none, score := .negInf, score_adj := .negInf, n := 0,
      trade_rate := 0, window_obs := observations.length,
      reason := "empty_grid" }
  else
    match grid.foldl
        (fun acc theta => best_step acc
          (eval_candidate sqrtQ window_size min_trades alpha observations theta))
        none with
    | none =>
      { theta_hat := none, score := .negInf, score_adj := .negInf, n := 0,
        trade_rate := 0, window_obs := observations.length,
        reason := "no_valid_candidate" }
    | some b =>
      { theta_hat := some b.theta_hat, score := b.score,
        score_adj := b.score_adj, n := b.n, trade_rate := b.trade_rate,
        window_obs := observations.length, reason := "ok" }

/-- The running best over a plain candidate list, starting from `b`:
the earliest candidate attaining the maximum adjusted score. -/
def first_max (b : Candidate) : List Candidate → Candidate
  | [] => b
  | c :: cs => first_max (if Score.ltB b.score_adj c.score_adj then c else b) cs

/-- Python `round(x, 10)`: round half to even at the 10th decimal. -/
def round_half_even (x : ℚ) : ℤ :=
  let f := ⌊x⌋
  let r := x - f
  if r < 1/2 then f
  else if 1/2 < r then f + 1
  else if f % 2 = 0 then f else f + 1

def pyRound10 (x : ℚ) : ℚ := (round_half_even (x * 10^10) : ℚ) / 10^10

/-- The grid loop of `_threshold_grid`; the fuel argument models the
`steps < max_steps` guard (`max_steps = 10000`). -/
def threshold_grid_aux (grid_max grid_step : ℚ) : ℕ → ℚ → List ℚ
  | 0, _ => []
  | fuel + 1, theta =>
    if theta ≤ grid_max + 1/1000000000000 then
      (if 0 < theta then [pyRound10 theta] else [])
        ++ threshold_grid_aux grid_max grid_step fuel (theta + grid_step)
    else []

def threshold_grid (grid_min grid_max grid_step : ℚ) : List ℚ :=
  threshold_grid_aux grid_max grid_step 10000 grid_min

/-- The slice of a market snapshot the calibrator reads (`bid`, `ask`,
`imbalance`, coerced to floats). -/
structure Snapshot where
  bid : ℚ
  ask : ℚ
  imbalance : ℚ
deriving DecidableEq, Repr

def safe_mid (best_bid best_ask : ℚ) : ℚ :=
  if best_bid ≤ 0 ∨ best_ask ≤ 0 then 0 else (best_bid + best_ask) / 2

/-- The mutable state of `WalkForwardCalibrator`, plus two instrumentation
fields not present in the source, used only to *observe* the run:
`attempt_count` counts calls of `_attempt_calibration`, and
`polls_since_success` counts exactly the increments of
`_trade_polls_since_calibration` but is reset only by a *successful*
calibration. -/
structure Calibrator where
  mode : String
  window_size : ℕ
  trade_horizon : ℕ
  grid_min : ℚ
  grid_max : ℚ
  grid_step : ℚ
  min_trades : ℕ
  turnover_penalty_alpha : ℚ
  ema_lambda : ℚ
  horizon_polls : ℕ
  state : String
  last_report : CalibrationReport
  labeled_obs : List LabeledObservation
  pending_obs : List (ℚ × ℚ)
  theta_hat : Option ℚ
  theta_live : Option ℚ
  trade_polls_since_calibration : ℕ
  attempt_count : ℕ
  polls_since_success : ℕ
deriving DecidableEq, Repr

def Calibrator.init (mode : String) (window_size trade_horizon : ℕ)
    (grid_min grid_max grid_step : ℚ) (min_trades : ℕ)
    (alpha ema_lambda : ℚ) (horizon_polls : ℕ) : Calibrator :=
  { mode := mode, window_size := window_size, trade_horizon := trade_horizon
    grid_min := grid_min, grid_max := grid_max, grid_step := grid_step
    min_trades := min_trades, turnover_penalty_alpha := alpha
    ema_lambda := ema_lambda, horizon_polls := horizon_polls
    state := WARMUP
    last_report := { theta_hat := none, score := .negInf, score_adj := .negInf,
                     n := 0, trade_rate := 0, window_obs := 0, reason := "" }
    labeled_obs := [], pending_obs := [], theta_hat := none, theta_live := none
    trade_polls_since_calibration := 0, attempt_count := 0
    polls_since_success := 0 }

/-- `WalkForwardCalibrator._attempt_calibration`. -/
def attempt_calibration (sqrtQ : ℚ → ℚ) (c : Calibrator) : Calibrator :=
  let report := calibrate_threshold sqrtQ c.window_size c.min_trades
    c.turnover_penalty_alpha (threshold_grid c.grid_min c.grid_max c.grid_step)
    c.labeled_obs
  let c := { c with last_report := report,
                    attempt_count := c.attempt_count + 1 }
  match report.theta_hat with
  | none =>
    if c.theta_live = none then { c with state := WARMUP }
    else { c with state := TRADING, trade_polls_since_calibration := 0 }
  | some th =>
    let theta_live : ℚ :=
      if (0 : ℚ) < c.ema_lambda ∧ c.theta_live ≠ none then
        c.ema_lambda * th + (1 - c.ema_lambda) * c.theta_live.getD 0
      else th
    { c with theta_hat := some th
             theta_live := some (max theta_live 0)
             trade_polls_since_calibration := 0
             polls_since_success := 0
             state := CALIBRATING
             last_report := { report with theta_live := some (max theta_live 0) } }

/-- `WalkForwardCalibrator._update_warmup_then_trade`. -/
def update_warmup_then_trade (sqrtQ : ℚ → ℚ) (c : Calibrator) : Calibrator :=
  if c.theta_live ≠ none then
    (if c.state ≠ CALIBRATING then { c with state := TRADING } else c)
  else if c.labeled_obs.length < c.window_size then { c with state := WARMUP }
  else attempt_calibration sqrtQ c

/-- `WalkForwardCalibrator._update_rolling_walk_forward`. -/
def update_rolling_walk_forward (sqrtQ : ℚ → ℚ) (c : Calibrator) : Calibrator :=
  if c.theta_live = none then
    (if c.labeled_obs.length < c.window_size then { c with state := WARMUP }
     else attempt_calibration sqrtQ c)
  else if c.trade_horizon ≤ c.trade_polls_since_calibration then
    attempt_calibration sqrtQ c
  else if c.state ≠ CALIBRATING then { c with state := TRADING } else c

/-- The observation pipeline of `WalkForwardCalibrator.update`: append the
(imbalance, mid) pair to the pending FIFO and, when the queue exceeds the
horizon, pop the oldest entry and label it with its forward return.  In the
embedding all rationals are finite, so the `math.isfinite` guards of the
source always pass. -/
def observe_snapshot (c : Calibrator) (imbalance mid : ℚ) : Calibrator :=
  let c := { c with pending_obs := c.pending_obs ++ [(imbalance, mid)] }
  if c.horizon_polls < c.pending_obs.length then
    match c.pending_obs with
    | [] => c
    | (prev_imbalance, prev_mid) :: rest =>
      let c := { c with pending_obs := rest }
      if 0 < prev_mid then
        { c with labeled_obs := (dequePush c.window_size c.labeled_obs
            ⟨prev_imbalance, mid / prev_mid - 1⟩) }
      else c
  else c

/-- `WalkForwardCalibrator.update`. -/
def Calibrator.update (sqrtQ : ℚ → ℚ) (c : Calibrator) (snap : Snapshot) :
    Calibrator :=
  let c := if c.state = CALIBRATING then { c with state := TRADING } else c
  let mid := safe_mid snap.bid snap.ask
  if mid ≤ 0 then c
  else
    let c := observe_snapshot c snap.imbalance mid
    if c.mode = MODE_WARMUP_THEN_TRADE then update_warmup_then_trade sqrtQ c
    else update_rolling_walk_forward sqrtQ c

/-- `WalkForwardCalibrator.current_threshold`: returns the live threshold
(or the clamped default) and, as a side effect in rolling mode with a live
threshold while TRADING/CALIBRATING, increments the polls counter. -/
def Calibrator.current_threshold (c : Calibrator) (default_threshold : ℚ) :
    ℚ × Calibrator :=
  let threshold := c.theta_live.getD (max default_threshold 0)
  let c :=
    if c.mode = MODE_ROLLING_WALK_FORWARD ∧ c.theta_live ≠ none
        ∧ (c.state = TRADING ∨ c.state = CALIBRATING) then
      { c with trade_polls_since_calibration :=
                 c.trade_polls_since_calibration + 1
               polls_since_success := c.polls_since_success + 1 }
    else c
  (threshold, c)

/-- One interaction with the calibrator: an `update` with a snapshot, or a
`current_threshold` call with a default. -/
inductive CalOp where
  | upd (snap : Snapshot)
  | thr (default_threshold : ℚ)
deriving DecidableEq, Repr

def run_calibrator (sqrtQ : ℚ → ℚ) : Calibrator → List CalOp → Calibrator
  | c, [] => c
  | c, CalOp.upd s :: ops =>
    run_calibrator sqrtQ (Calibrator.update sqrtQ c s) ops
  | c, CalOp.thr d :: ops =>
    run_calibrator sqrtQ (Calibrator.current_threshold c d).2 ops

lemma dequePush_length {α : Type} (m : ℕ) (l : List α) (x : α) :
    (dequePush m l x).length = min (l.length + 1) m := by
  simp [dequePush]
  omega

lemma current_threshold_fields (c : Calibrator) (d : ℚ) :
    ((c.current_threshold d).2).mode = c.mode ∧
    ((c.current_threshold d).2).window_size = c.window_size ∧
    ((c.current_threshold d).2).state = c.state ∧
    ((c.current_threshold d).2).theta_live = c.theta_live ∧
    ((c.current_threshold d).2).labeled_obs = c.labeled_obs := by
  simp only [Calibrator.current_threshold]
  split_ifs <;> exact ⟨rfl, rfl, rfl, rfl, rfl⟩

lemma observe_snapshot_fields (c : Calibrator) (imbalance mid : ℚ) :
    (observe_snapshot c imbalance mid).mode = c.mode ∧
    (observe_snapshot c imbalance mid).window_size = c.window_size ∧
    (observe_snapshot c imbalance mid).trade_horizon = c.trade_horizon ∧
    (observe_snapshot c imbalance mid).state = c.state ∧
    (observe_snapshot c imbalance mid).theta_live = c.theta_live ∧
    (observe_snapshot c imbalance mid).trade_polls_since_calibration
      = c.trade_polls_since_calibration ∧
    (observe_snapshot c imbalance mid).attempt_count = c.attempt_count ∧
    (observe_snapshot c imbalance mid).polls_since_success
      = c.polls_since_success ∧
    ((observe_snapshot c imbalance mid).labeled_obs = c.labeled_obs ∨
      (observe_snapshot c imbalance mid).labeled_obs.length
        = min (c.labeled_obs.length + 1) c.window_size) := by
  simp only [observe_snapshot]
  split
  · split
    · exact ⟨rfl, rfl, rfl, rfl, rfl, rfl, rfl, rfl, Or.inl rfl⟩
    · split
      · exact ⟨rfl, rfl, rfl, rfl, rfl, rfl, rfl, rfl,
          Or.inr (dequePush_length _ _ _)⟩
      · exact ⟨rfl, rfl, rfl, rfl, rfl, rfl, rfl, rfl, Or.inl rfl⟩
  · exact ⟨rfl, rfl, rfl, rfl, rfl, rfl, rfl, rfl, Or.inl rfl⟩

lemma attempt_calibration_fields (sqrtQ : ℚ → ℚ) (c : Calibrator) :
    (attempt_calibration sqrtQ c).mode = c.mode ∧
    (attempt_calibration sqrtQ c).window_size = c.window_size ∧
    (attempt_calibration sqrtQ c).labeled_obs = c.labeled_obs ∧
    (attempt_calibration sqrtQ c).attempt_count = c.attempt_count + 1 ∧
    (c.theta_live ≠ none →
      (attempt_calibration sqrtQ c).trade_polls_since_calibration = 0) := by
  simp only [attempt_calibration]
  split
  · split_ifs with h
    · exact ⟨rfl, rfl, rfl, rfl, fun hn => absurd h hn⟩
    · exact ⟨rfl, rfl, rfl, rfl, fun _ => rfl⟩
  · exact ⟨rfl, rfl, rfl, rfl, fun _ => rfl⟩

/-- The instrumentation counter `polls_since_success` is preserved by a
*failed* calibration attempt (observable as `last_report.theta_hat = none`)
and zeroed by a successful one — unlike `_trade_polls_since_calibration`,
which every attempt resets while a threshold is live. -/
lemma attempt_calibration_ghost (sqrtQ : ℚ → ℚ) (c : Calibrator) :
    ((attempt_calibration sqrtQ c).last_report.theta_hat = none →
      (attempt_calibration sqrtQ c).polls_since_success
        = c.polls_since_success) ∧
    ((attempt_calibration sqrtQ c).last_report.theta_hat ≠ none →
      (attempt_calibration sqrtQ c).polls_since_success = 0) := by
  rcases hr : (calibrate_threshold sqrtQ c.window_size c.min_trades
      c.turnover_penalty_alpha
      (threshold_grid c.grid_min c.grid_max c.grid_step)
      c.labeled_obs).theta_hat with _ | th
  · constructor
    · intro _
      simp only [attempt_calibration, hr]
      split_ifs <;> rfl
    · intro hne
      simp only [attempt_calibration, hr] at hne
      split_ifs at hne <;> exact absurd hr hne
  · constructor
    · intro h0
      simp only [attempt_calibration, hr] at h0
      simp at h0
    · intro _
      simp only [attempt_calibration, hr]

lemma update_warmup_then_trade_cases (sqrtQ : ℚ → ℚ) (c : Calibrator) :
    (∀ θ, c.theta_live = some θ →
      (update_warmup_then_trade sqrtQ c).theta_live = some θ ∧
      (update_warmup_then_trade sqrtQ c).mode = c.mode ∧
      (update_warmup_then_trade sqrtQ c).window_size = c.window_size ∧
      (update_warmup_then_trade sqrtQ c).labeled_obs = c.labeled_obs) ∧
    (c.theta_live = none →
      c.labeled_obs.length < c.window_size →
      update_warmup_then_trade sqrtQ c = { c with state := WARMUP }) ∧
    (c.theta_live = none →
      ¬(c.labeled_obs.length < c.window_size) →
      update_warmup_then_trade sqrtQ c = attempt_calibration sqrtQ c) := by
  refine ⟨?_, ?_, ?_⟩
  · intro θ hθ
    simp only [update_warmup_then_trade]
    rw [if_pos (by simp [hθ])]
    split_ifs <;> exact ⟨hθ, rfl, rfl, rfl⟩
  · intro hn hl
    simp only [update_warmup_then_trade]
    rw [if_neg (by simp [hn]), if_pos hl]
  · intro hn hl
    simp only [update_warmup_then_trade]
    rw [if_neg (by simp [hn]), if_neg hl]

lemma update_rolling_walk_forward_cases (sqrtQ : ℚ → ℚ) (c : Calibrator)
    (hlive : c.theta_live ≠ none) :
    (c.trade_horizon ≤ c.trade_polls_since_calibration →
      update_rolling_walk_forward sqrtQ c = attempt_calibration sqrtQ c) ∧
    (c.trade_polls_since_calibration < c.trade_horizon →
      (update_rolling_walk_forward sqrtQ c).attempt_count = c.attempt_count ∧
      (update_rolling_walk_forward sqrtQ c).trade_polls_since_calibration
        = c.trade_polls_since_calibration ∧
      (update_rolling_walk_forward sqrtQ c).theta_live = c.theta_live) := by
  constructor
  · intro h
    simp only [update_rolling_walk_forward]
    rw [if_neg hlive, if_pos h]
  · intro h
    simp only [update_rolling_walk_forward]
    rw [if_neg hlive, if_neg (not_le.mpr h)]
    split_ifs <;> exact ⟨rfl, rfl, rfl⟩

lemma run_calibrator_append (sqrtQ : ℚ → ℚ) (ops₁ ops₂ : List CalOp) :
    ∀ c : Calibrator,
      run_calibrator sqrtQ c (ops₁ ++ ops₂)
        = run_calibrator sqrtQ (run_calibrator sqrtQ c ops₁) ops₂ := by
  induction ops₁ with
  | nil => intro c; rfl
  | cons op ops ih =>
    intro c
    cases op with
    | upd s => exact ih (Calibrator.update sqrtQ c s)
    | thr d => exact ih (Calibrator.current_threshold c d).2

lemma Score.ltB_irrefl (a : Score) : Score.ltB a a = false := by
  cases a <;> simp [Score.ltB]

lemma Score.ltB_asymm {a b : Score} (h : Score.ltB a b = true) :
    Score.ltB b a = false := by
  cases a <;> cases b <;> simp_all [Score.ltB] <;> linarith

lemma Score.ltB_le_lt {a b c : Score} (hba : Score.ltB b a = false)
    (hbc : Score.ltB b c = true) : Score.ltB a c = true := by
  cases a <;> cases b <;> cases c <;> simp_all [Score.ltB] <;> linarith

lemma Score.ltB_lt_le {a b c : Score} (hab : Score.ltB a b = true)
    (hcb : Score.ltB c b = false) : Score.ltB a c = true := by
  cases a <;> cases b <;> cases c <;> simp_all [Score.ltB] <;> linarith

/-- The running best over a candidate list lands on the earliest candidate
attaining the maximum adjusted score: it is a member, no candidate beats
it, and it strictly beats every earlier candidate. -/
lemma first_max_spec (cs : List Candidate) : ∀ b : Candidate,
    ∃ i, ∃ hi : i < (b :: cs).length,
      first_max b cs = (b :: cs).get ⟨i, hi⟩ ∧
      (∀ c ∈ b :: cs,
        Score.ltB (first_max b cs).score_adj c.score_adj = false) ∧
      (∀ j, ∀ hj : j < (b :: cs).length, j < i →
        Score.ltB ((b :: cs).get ⟨j, hj⟩).score_adj
          (first_max b cs).score_adj = true) := by
  induction cs with
  | nil =>
    intro b
    refine ⟨0, by simp, rfl, ?_, by omega⟩
    intro c hc
    rw [List.mem_singleton] at hc
    rw [hc, first_max]
    exact Score.ltB_irrefl b.score_adj
  | cons c cs ih =>
    intro b
    by_cases hbc : Score.ltB b.score_adj c.score_adj = true
    · obtain ⟨i, hi, heq, hdom, hstrict⟩ := ih c
      have hfm : first_max b (c :: cs) = first_max c cs := by
        rw [first_max, if_pos hbc]
      have hblt : Score.ltB b.score_adj (first_max c cs).score_adj = true :=
        Score.ltB_lt_le hbc (hdom c (List.mem_cons_self c cs))
      refine ⟨i + 1, by simpa using hi, by simpa [hfm] using heq, ?_, ?_⟩
      · intro x hx
        rcases List.mem_cons.mp hx with hx | hx
        · rw [hfm, hx]
          exact Score.ltB_asymm hblt
        · rw [hfm]
          exact hdom x hx
      · intro j hj hji
        match j with
        | 0 => simpa [hfm] using hblt
        | j + 1 =>
          have hj2 : j < (c :: cs).length := by simpa using hj
          simpa [hfm] using hstrict j hj2 (by omega)
    · have hbc2 : Score.ltB b.score_adj c.score_adj = false :=
        Bool.eq_false_iff.mpr hbc
      obtain ⟨i, hi, heq, hdom, hstrict⟩ := ih b
      have hfm : first_max b (c :: cs) = first_max b cs := by
        rw [first_max, if_neg (by simp [hbc2])]
      match i, hi with
      | 0, hi =>
        have heqb : first_max b cs = b := heq
        refine ⟨0, by simp, by simpa [hfm] using heqb, ?_, by omega⟩
        intro x hx
        rcases List.mem_cons.mp hx with hx | hx
        · rw [hfm, heqb, hx]
          exact Score.ltB_irrefl b.score_adj
        · rcases List.mem_cons.mp hx with hx | hx
          · rw [hfm, heqb, hx]
            exact hbc2
          · rw [hfm]
            exact hdom x (List.mem_cons_of_mem b hx)
      | k + 1, hi =>
        have hblt : Score.ltB b.score_adj (first_max b cs).score_adj = true := by
          have := hstrict 0 (by simp) (by omega)
          simpa using this
        have hclt : Score.ltB c.score_adj (first_max b cs).score_adj = true :=
          Score.ltB_le_lt hbc2 hblt
        have hk : k < cs.length := by simpa using hi
        refine ⟨k + 2, by simpa using hk, ?_, ?_, ?_⟩
        · simpa [hfm] using heq
        · intro x hx
          rcases List.mem_cons.mp hx with hx | hx
          · rw [hfm, hx]
            exact hdom b (List.mem_cons_self b cs)
          · rcases List.mem_cons.mp hx with hx | hx
            · rw [hfm, hx]
              exact Score.ltB_asymm hclt
            · rw [hfm]
              exact hdom x (List.mem_cons_of_mem b hx)
        · intro j hj hji
          match j with
          | 0 => simpa [hfm] using hblt
          | 1 => simpa [hfm] using hclt
          | j + 2 =>
            have hj2 : j + 1 < (b :: cs).length := by simpa using hj
            simpa [hfm] using hstrict (j + 1) hj2 (by omega)

lemma best_step_none_right (acc : Option Candidate) : best_step acc none = acc :=
  rfl

lemma best_step_none_left (c : Candidate) : best_step none (some c) = some c :=
  rfl

lemma best_step_some_some (b c : Candidate) :
    best_step (some b) (some c) =
      if Score.ltB b.score_adj c.score_adj then some c else some b := rfl

/-- Folding the running-best update from an existing best `b` computes
`first_max` over the valid candidates. -/
lemma foldl_best_some (f : ℚ → Option Candidate) (l : List ℚ) :
    ∀ b : Candidate,
      l.foldl (fun acc θ => best_step acc (f θ)) (some b)
        = some (first_max b (l.filterMap f)) := by
  induction l with
  | nil => intro b; rfl
  | cons θ l ih =>
    intro b
    cases hf : f θ with
    | none =>
      simp only [List.foldl_cons]
      rw [hf, best_step_none_right, List.filterMap_cons_none hf]
      exact ih b
    | some c =>
      simp only [List.foldl_cons]
      rw [hf, best_step_some_some, List.filterMap_cons_some hf]
      cases hbc : Score.ltB b.score_adj c.score_adj <;> simp [first_max, hbc, ih]

/-- Folding the running-best update from `None` returns `None` exactly when
no grid point yields a candidate, and otherwise the `first_max` of the
valid candidates. -/
lemma foldl_best_none (f : ℚ → Option Candidate) (l : List ℚ) :
    l.foldl (fun acc θ => best_step acc (f θ)) none
      = match l.filterMap f with
        | [] => none
        | c :: cs => some (first_max c cs) := by
  induction l with
  | nil => rfl
  | cons θ l ih =>
    cases hf : f θ with
    | none =>
      simp only [List.foldl_cons]
      rw [hf, best_step_none_right, List.filterMap_cons_none hf]
      exact ih
    | some c =>
      simp only [List.foldl_cons]
      rw [hf, best_step_none_left, List.filterMap_cons_some hf,
        foldl_best_some]

lemma update_warmup_step (sqrtQ : ℚ → ℚ) (c : Calibrator) (s : Snapshot)
    (hmode : c.mode = MODE_WARMUP_THEN_TRADE)
    (hlen : c.labeled_obs.length ≤ c.window_size)
    (hinv : c.labeled_obs.length < c.window_size →
      c.state = WARMUP ∧ c.theta_live = none) :
    (Calibrator.update sqrtQ c s).mode = MODE_WARMUP_THEN_TRADE ∧
    (Calibrator.update sqrtQ c s).window_size = c.window_size ∧
    (Calibrator.update sqrtQ c s).labeled_obs.length ≤ c.window_size ∧
    ((Calibrator.update sqrtQ c s).labeled_obs.length < c.window_size →
      (Calibrator.update sqrtQ c s).state = WARMUP ∧
      (Calibrator.update sqrtQ c s).theta_live = none) := by
  simp only [Calibrator.update]
  set c1 := if c.state = CALIBRATING then { c with state := TRADING } else c
    with hc1
  have h1 : c1.mode = c.mode ∧ c1.window_size = c.window_size ∧
      c1.labeled_obs = c.labeled_obs ∧ c1.theta_live = c.theta_live := by
    rw [hc1]; split_ifs <;> exact ⟨rfl, rfl, rfl, rfl⟩
  have h1inv : c1.labeled_obs.length < c.window_size →
      c1.state = WARMUP ∧ c1.theta_live = none := by
    intro h
    rw [h1.2.2.1] at h
    obtain ⟨hs, hl⟩ := hinv h
    have hnc : ¬(c.state = CALIBRATING) := by rw [hs]; decide
    rw [hc1, if_neg hnc]
    exact ⟨hs, hl⟩
  by_cases hmid : safe_mid s.bid s.ask ≤ 0
  · rw [if_pos hmid]
    exact ⟨h1.1.trans hmode, h1.2.1, by rw [h1.2.2.1]; exact hlen, h1inv⟩
  · rw [if_neg hmid]
    obtain ⟨o1, o2, _, o4, o5, _, _, _, o9⟩ :=
      observe_snapshot_fields c1 s.imbalance (safe_mid s.bid s.ask)
    set c2 := observe_snapshot c1 s.imbalance (safe_mid s.bid s.ask) with hc2
    have hm2 : c2.mode = MODE_WARMUP_THEN_TRADE := by rw [o1, h1.1, hmode]
    rw [if_pos hm2]
    have hw2 : c2.window_size = c.window_size := by rw [o2, h1.2.1]
    have hlen2 : c2.labeled_obs.length ≤ c.window_size := by
      rcases o9 with h | h
      · rw [h, h1.2.2.1]; exact hlen
      · rw [h, h1.2.1]; exact min_le_right _ _
    have hinv2 : c2.labeled_obs.length < c.window_size →
        c2.state = WARMUP ∧ c2.theta_live = none := by
      intro h
      have hlt1 : c1.labeled_obs.length < c.window_size := by
        rcases o9 with h9 | h9
        · rwa [h9] at h
        · rw [h9, h1.2.1] at h; omega
      obtain ⟨hs, hl⟩ := h1inv hlt1
      exact ⟨by rw [o4, hs], by rw [o5, hl]⟩
    by_cases hlive2 : c2.theta_live = none
    · by_cases hl2 : c2.labeled_obs.length < c2.window_size
      · rw [(update_warmup_then_trade_cases sqrtQ c2).2.1 hlive2 hl2]
        exact ⟨hm2, hw2, hlen2, fun _ => ⟨rfl, hlive2⟩⟩
      · rw [(update_warmup_then_trade_cases sqrtQ c2).2.2 hlive2 hl2]
        obtain ⟨a1, a2, a3, _, _⟩ := attempt_calibration_fields sqrtQ c2
        refine ⟨by rw [a1, hm2], by rw [a2, hw2], by rw [a3]; exact hlen2, ?_⟩
        intro h
        rw [a3, ← hw2] at h
        exact absurd h hl2
    · obtain ⟨θ, hθ⟩ := Option.ne_none_iff_exists'.mp hlive2
      obtain ⟨w1, w2, w3, w4⟩ :=
        (update_warmup_then_trade_cases sqrtQ c2).1 θ hθ
      refine ⟨by rw [w2, hm2], by rw [w3, hw2], by rw [w4]; exact hlen2, ?_⟩
      intro h
      rw [w4] at h
      have := (hinv2 h).2
      rw [hθ] at this
      exact absurd this (by simp)

lemma update_warmup_live (sqrtQ : ℚ → ℚ) (c : Calibrator) (s : Snapshot)
    (θ : ℚ) (hmode : c.mode = MODE_WARMUP_THEN_TRADE)
    (hlive : c.theta_live = some θ) :
    (Calibrator.update sqrtQ c s).theta_live = some θ ∧
    (Calibrator.update sqrtQ c s).mode = MODE_WARMUP_THEN_TRADE := by
  simp only [Calibrator.update]
  set c1 := if c.state = CALIBRATING then { c with state := TRADING } else c
    with hc1
  have h1 : c1.mode = c.mode ∧ c1.theta_live = c.theta_live := by
    rw [hc1]; split_ifs <;> exact ⟨rfl, rfl⟩
  by_cases hmid : safe_mid s.bid s.ask ≤ 0
  · rw [if_pos hmid]
    exact ⟨h1.2.trans hlive, h1.1.trans hmode⟩
  · rw [if_neg hmid]
    obtain ⟨o1, _, _, _, o5, _, _, _, _⟩ :=
      observe_snapshot_fields c1 s.imbalance (safe_mid s.bid s.ask)
    set c2 := observe_snapshot c1 s.imbalance (safe_mid s.bid s.ask) with hc2
    have hm2 : c2.mode = MODE_WARMUP_THEN_TRADE := by rw [o1, h1.1, hmode]
    rw [if_pos hm2]
    obtain ⟨w1, w2, _, _⟩ := (update_warmup_then_trade_cases sqrtQ c2).1 θ
      (by rw [o5, h1.2, hlive])
    exact ⟨w1, w2.trans hm2⟩

lemma run_warmup_invariant (sqrtQ : ℚ → ℚ) (ops : List CalOp) :
    ∀ c : Calibrator, c.mode = MODE_WARMUP_THEN_TRADE →
    c.labeled_obs.length ≤ c.window_size →
    (c.labeled_obs.length < c.window_size →
      c.state = WARMUP ∧ c.theta_live = none) →
    (run_calibrator sqrtQ c ops).mode = MODE_WARMUP_THEN_TRADE ∧
    (run_calibrator sqrtQ c ops).window_size = c.window_size ∧
    (run_calibrator sqrtQ c ops).labeled_obs.length ≤ c.window_size ∧
    ((run_calibrator sqrtQ c ops).labeled_obs.length < c.window_size →
      (run_calibrator sqrtQ c ops).state = WARMUP ∧
      (run_calibrator sqrtQ c ops).theta_live = none) := by
  induction ops with
  | nil => intro c h1 h2 h3; exact ⟨h1, rfl, h2, h3⟩
  | cons op ops ih =>
    intro c h1 h2 h3
    cases op with
    | upd s =>
      obtain ⟨u1, u2, u3, u4⟩ := update_warmup_step sqrtQ c s h1 h2 h3
      obtain ⟨r1, r2, r3, r4⟩ := ih (Calibrator.update sqrtQ c s) u1
        (by rw [u2]; exact u3) (fun h => u4 (by rw [← u2]; exact h))
      refine ⟨r1, r2.trans u2, by rw [u2] at r3; exact r3, ?_⟩
      intro h
      exact r4 (by rw [u2]; exact h)
    | thr d =>
      obtain ⟨t1, t2, t3, t4, t5⟩ := current_threshold_fields c d
      obtain ⟨r1, r2, r3, r4⟩ := ih (c.current_threshold d).2
        (t1.trans h1) (by rw [t5, t2]; exact h2)
        (by rw [t5, t2, t3, t4]; exact h3)
      refine ⟨r1, r2.trans t2, by rw [t2] at r3; exact r3, ?_⟩
      intro h
      exact r4 (by rw [t2]; exact h)

lemma run_warmup_live (sqrtQ : ℚ → ℚ) (ops : List CalOp) :
    ∀ (c : Calibrator) (θ : ℚ), c.mode = MODE_WARMUP_THEN_TRADE →
    c.theta_live = some θ →
    (run_calibrator sqrtQ c ops).theta_live = some θ ∧
    (run_calibrator sqrtQ c ops).mode = MODE_WARMUP_THEN_TRADE := by
  induction ops with
  | nil => intro c θ h1 h2; exact ⟨h2, h1⟩
  | cons op ops ih =>
    intro c θ h1 h2
    cases op with
    | upd s =>
      obtain ⟨u1, u2⟩ := update_warmup_live sqrtQ c s θ h1 h2
      exact ih (Calibrator.update sqrtQ c s) θ u2 u1
    | thr d =>
      obtain ⟨t1, _, _, t4, _⟩ := current_threshold_fields c d
      exact ih (c.current_threshold d).2 θ (t1.trans h1) (t4.trans h2)

/-! ## Claim theorems for the signal function and confirmation filter -/

/-- C8 (counterexample): as stated, the claim quantifies over *every*
threshold, but at `imbalance = threshold = -1` the code returns `SELL`,
not the claimed `HOLD` (the boundary clause "imbalance == threshold yields
HOLD" fails for negative thresholds). -/
theorem signal_from_imbalance_neg_threshold_cex :
    signal_from_imbalance (-1) (-1) = SELL ∧ SELL ≠ HOLD := by
  constructor
  · rfl
  · decide

/-- C8 (amended): for every imbalance and every *non-negative* threshold
(the caller clamps the threshold at 0), `signal_from_imbalance` returns BUY
exactly when imbalance > threshold, SELL exactly when imbalance < -threshold,
and HOLD otherwise; in particular imbalance = threshold yields HOLD. -/
theorem signal_from_imbalance_cases (imbalance threshold : ℚ)
    (h : 0 ≤ threshold) :
    (signal_from_imbalance imbalance threshold = BUY ↔ threshold < imbalance) ∧
    (signal_from_imbalance imbalance threshold = SELL ↔ imbalance < -threshold) ∧
    (signal_from_imbalance imbalance threshold = HOLD ↔
      -threshold ≤ imbalance ∧ imbalance ≤ threshold) ∧
    (imbalance = threshold → signal_from_imbalance imbalance threshold = HOLD) := by
  have hBS : BUY ≠ SELL := by decide
  have hBH : BUY ≠ HOLD := by decide
  have hSH : SELL ≠ HOLD := by decide
  unfold signal_from_imbalance
  split_ifs with h1 h2
  · refine ⟨by simp [h1], ?_, ?_, ?_⟩
    · simp only [iff_false, hBS, false_iff, not_lt]
      linarith
    · simp only [hBH, false_iff, not_and, not_le]
      intro
      linarith
    · intro he; exfalso; rw [he] at h1; exact lt_irrefl _ h1
  · refine ⟨?_, by simp [h2], ?_, ?_⟩
    · simp only [hBS.symm, false_iff, not_lt]
      linarith
    · simp only [hSH, false_iff, not_and, not_le]
      intro
      linarith
    · intro he; exfalso; rw [he] at h2; linarith
  · push_neg at h1 h2
    refine ⟨?_, ?_, ?_, fun _ => rfl⟩
    · simp only [hBH.symm, false_iff, not_lt]
      exact h1
    · simp only [hSH.symm, false_iff, not_lt]
      exact h2
    · simp only [true_iff]
      exact ⟨h2, h1⟩

/-- C8 (witness): the amended theorem applied at imbalance = 1/2,
threshold = 1/2. -/
theorem signal_from_imbalance_cases_witness :
    (signal_from_imbalance (1/2) (1/2) = BUY ↔ (1/2 : ℚ) < 1/2) ∧
    (signal_from_imbalance (1/2) (1/2) = SELL ↔ (1/2 : ℚ) < -(1/2)) ∧
    (signal_from_imbalance (1/2) (1/2) = HOLD ↔
      -(1/2 : ℚ) ≤ 1/2 ∧ (1/2 : ℚ) ≤ 1/2) ∧
    ((1/2 : ℚ) = 1/2 → signal_from_imbalance (1/2) (1/2) = HOLD) :=
  signal_from_imbalance_cases (1/2) (1/2) (by norm_num)

/-- C7: the confirmation filter pushes the raw signal into the bounded
window (evicting the oldest when full), returns the raw signal iff it is
BUY or SELL and occurs at least K times in the *updated* window, and
returns HOLD otherwise; with M=3, K=2 the sequence [BUY, HOLD, BUY]
confirms BUY on the third call and [BUY, SELL, HOLD] never confirms. -/
theorem confirmed_signal_spec :
    (∀ (m k : ℕ) (hist : List String) (raw : String), k ≤ m →
      (confirmed_signal m k hist raw).2 = dequePush m hist raw ∧
      (confirmed_signal m k hist raw).1 =
        (if (raw = BUY ∨ raw = SELL) ∧ k ≤ (dequePush m hist raw).count raw
         then raw else HOLD)) ∧
    run_confirmed 3 2 [] [BUY, HOLD, BUY] = [HOLD, HOLD, BUY] ∧
    run_confirmed 3 2 [] [BUY, SELL, HOLD] = [HOLD, HOLD, HOLD] := by
  refine ⟨fun m k hist raw _ => ?_, by decide, by decide⟩
  unfold confirmed_signal
  by_cases hbs : raw = BUY ∨ raw = SELL
  · by_cases hcnt : k ≤ (dequePush m hist raw).count raw
    · simp [hbs, hcnt]
    · simp [hbs, hcnt]
  · simp [hbs]

/-- C7 (witness): the general clause of the theorem applied at M=3, K=2,
history [BUY, HOLD], raw signal BUY. -/
theorem confirmed_signal_spec_witness :
    (confirmed_signal 3 2 [BUY, HOLD] BUY).2 = dequePush 3 [BUY, HOLD] BUY ∧
    (confirmed_signal 3 2 [BUY, HOLD] BUY).1 =
      (if (BUY = BUY ∨ BUY = SELL) ∧ 2 ≤ (dequePush 3 [BUY, HOLD] BUY).count BUY
       then BUY else HOLD) :=
  confirmed_signal_spec.1 3 2 [BUY, HOLD] BUY (by decide)

/-! ## Claim theorems for the paper ledger -/

/-- C3 (counterexample): at the claimed input best_bid = best_ask = 100 the
crossed-book guard `best_bid >= best_ask` fires, so no trade executes and
the ledger is unchanged — the claimed purchase of 1.0 BTC does not happen. -/
theorem apply_dry_run_trade_equal_book_cex :
    (apply_dry_run_trade c3Ledger "DRY_RUN_BUY" true BUY 100 0 100 100).2.traded
      = false ∧
    (apply_dry_run_trade c3Ledger "DRY_RUN_BUY" true BUY 100 0 100 100).1
      = c3Ledger := by
  constructor <;> norm_num [apply_dry_run_trade, c3Ledger, BUY, SELL, startswith]

/-- C3 (amended): the book must be uncrossed (`best_bid < best_ask`); with
best_bid = 99, best_ask = 100 (fill at the ask, 100) the BUY of
quote_order_qty = 100 buys 1.0 BTC, leaving balances (900 USDT, 1.0 BTC);
equity at the current mid (99.5) moves from 1000 to 999.5
(trade P&L = -0.5, the half-spread cost). -/
theorem apply_dry_run_trade_buy_example :
    (apply_dry_run_trade c3Ledger "DRY_RUN_BUY" true BUY 100 0 99 100).2.traded
      = true ∧
    (apply_dry_run_trade c3Ledger "DRY_RUN_BUY" true BUY 100 0 99 100).2.executed_qty_btc
      = 1 ∧
    (apply_dry_run_trade c3Ledger "DRY_RUN_BUY" true BUY 100 0 99 100).2.exec_px
      = 100 ∧
    (apply_dry_run_trade c3Ledger "DRY_RUN_BUY" true BUY 100 0 99 100).1.paper_usdt
      = 900 ∧
    (apply_dry_run_trade c3Ledger "DRY_RUN_BUY" true BUY 100 0 99 100).1.paper_btc
      = 1 ∧
    c3Ledger.paper_usdt + c3Ledger.paper_btc * ((99 + 100) / 2) = 1000 ∧
    (apply_dry_run_trade c3Ledger "DRY_RUN_BUY" true BUY 100 0 99 100).1.paper_usdt
      + (apply_dry_run_trade c3Ledger "DRY_RUN_BUY" true BUY 100 0 99 100).1.paper_btc
        * ((99 + 100) / 2) = 1999/2 ∧
    (apply_dry_run_trade c3Ledger "DRY_RUN_BUY" true BUY 100 0 99 100).2.trade_pnl_usdt
      = -(1/2) := by
  refine ⟨?_, ?_, ?_, ?_, ?_, ?_, ?_, ?_⟩ <;>
    norm_num [apply_dry_run_trade, exec_px_of, c3Ledger, BUY, SELL, startswith]

/-- C6: whenever the book is crossed or flat (best_bid ≥ best_ask), or the
decision is not approved, or the action is not a DRY_RUN one, or the side is
not BUY/SELL, or a price is non-positive, `apply_dry_run_trade` leaves the
ledger unchanged and returns a no-trade result (traded = false, zero
quantity, notional, fee and P&L). -/
theorem apply_dry_run_trade_noop (ledger : PaperLedger) (action_taken : String)
    (approved : Bool) (side : String) (qq q bb ba : ℚ)
    (h : ba ≤ bb ∨ approved = false ∨ startswith action_taken "DRY_RUN_" = false
       ∨ (side ≠ BUY ∧ side ≠ SELL) ∨ bb ≤ 0 ∨ ba ≤ 0) :
    (apply_dry_run_trade ledger action_taken approved side qq q bb ba).1 = ledger ∧
    (apply_dry_run_trade ledger action_taken approved side qq q bb ba).2.traded = false ∧
    (apply_dry_run_trade ledger action_taken approved side qq q bb ba).2.executed_qty_btc = 0 ∧
    (apply_dry_run_trade ledger action_taken approved side qq q bb ba).2.trade_notional_usdt = 0 ∧
    (apply_dry_run_trade ledger action_taken approved side qq q bb ba).2.fee_usdt = 0 ∧
    (apply_dry_run_trade ledger action_taken approved side qq q bb ba).2.trade_pnl_usdt = 0 := by
  unfold apply_dry_run_trade
  by_cases h1 : approved = false ∨ startswith action_taken "DRY_RUN_" = false
  · rw [if_pos h1]
    exact ⟨rfl, rfl, rfl, rfl, rfl, rfl⟩
  · rw [if_neg h1]
    by_cases h2 : ¬(side = BUY ∨ side = SELL)
    · rw [if_pos h2]
      exact ⟨rfl, rfl, rfl, rfl, rfl, rfl⟩
    · rw [if_neg h2]
      by_cases h3 : bb ≤ 0 ∨ ba ≤ 0 ∨ bb ≥ ba
      · rw [if_pos h3]
        exact ⟨rfl, rfl, rfl, rfl, rfl, rfl⟩
      · exfalso
        push_neg at h1 h2 h3
        rcases h with h | h | h | h | h | h
        · exact absurd h3.2.2 (not_lt.mpr h)
        · exact h1.1 h
        · exact h1.2 h
        · rcases h2 with hb | hs
          · exact h.1 hb
          · exact h.2 hs
        · exact absurd h3.1 (not_lt.mpr h)
        · exact absurd h3.2.1 (not_lt.mpr h)

/-- C6 (witness): the no-op theorem applied at a crossed book
(best_bid = best_ask = 100) on the C3 ledger. -/
theorem apply_dry_run_trade_noop_witness :
    (apply_dry_run_trade c3Ledger "DRY_RUN_BUY" true BUY 100 0 100 100).1 = c3Ledger ∧
    (apply_dry_run_trade c3Ledger "DRY_RUN_BUY" true BUY 100 0 100 100).2.traded = false ∧
    (apply_dry_run_trade c3Ledger "DRY_RUN_BUY" true BUY 100 0 100 100).2.executed_qty_btc = 0 ∧
    (apply_dry_run_trade c3Ledger "DRY_RUN_BUY" true BUY 100 0 100 100).2.trade_notional_usdt = 0 ∧
    (apply_dry_run_trade c3Ledger "DRY_RUN_BUY" true BUY 100 0 100 100).2.fee_usdt = 0 ∧
    (apply_dry_run_trade c3Ledger "DRY_RUN_BUY" true BUY 100 0 100 100).2.trade_pnl_usdt = 0 :=
  apply_dry_run_trade_noop c3Ledger "DRY_RUN_BUY" true BUY 100 0 100 100
    (Or.inl (by norm_num))

/-- C10: if the ledger starts with non-negative balances and a fee rate in
[0, 1], `apply_dry_run_trade` keeps both balances non-negative: a BUY never
spends more quote than available, a SELL never sells more base than
available and credits a non-negative net. -/
theorem apply_dry_run_trade_nonneg (ledger : PaperLedger) (action_taken : String)
    (approved : Bool) (side : String) (qq q bb ba : ℚ)
    (husdt : 0 ≤ ledger.paper_usdt) (hbtc : 0 ≤ ledger.paper_btc)
    (hf0 : 0 ≤ ledger.fee_rate) (hf1 : ledger.fee_rate ≤ 1) :
    0 ≤ (apply_dry_run_trade ledger action_taken approved side qq q bb ba).1.paper_usdt ∧
    0 ≤ (apply_dry_run_trade ledger action_taken approved side qq q bb ba).1.paper_btc := by
  simp only [apply_dry_run_trade]
  split_ifs with h1 h2 h3 h4 h5 h6 h7 h8 h9
  all_goals try exact ⟨husdt, hbtc⟩
  all_goals push_neg at h4
  all_goals constructor
  all_goals simp only
  all_goals first
    | -- quote balance after a BUY: spend = min(max qq 0) usdt ≤ usdt
      (have hmin : (qq ⊔ 0) ⊓ ledger.paper_usdt ≤ ledger.paper_usdt := inf_le_right
       linarith)
    | -- base balance after a BUY: a non-negative net divided by a positive price
      (have hnet : (0 : ℚ) ≤ 0 ⊔ ((qq ⊔ 0) ⊓ ledger.paper_usdt
          - ((qq ⊔ 0) ⊓ ledger.paper_usdt) * ledger.fee_rate) := le_sup_left
       have hdiv : (0 : ℚ) ≤ (0 ⊔ ((qq ⊔ 0) ⊓ ledger.paper_usdt
          - ((qq ⊔ 0) ⊓ ledger.paper_usdt) * ledger.fee_rate))
          / exec_px_of bb ba side ledger.slippage_bps :=
         div_nonneg hnet (le_of_lt h4)
       linarith)
    | -- base balance after a SELL: sell_qty = min(max q 0) btc ≤ btc
      (have hmin : (q ⊔ 0) ⊓ ledger.paper_btc ≤ ledger.paper_btc := inf_le_right
       linarith)
    | -- quote balance after a SELL: credit gross·(1 - fee_rate) ≥ 0
      (have hq0 : (0 : ℚ) ≤ (q ⊔ 0) ⊓ ledger.paper_btc := le_inf le_sup_right hbtc
       have hgross : (0 : ℚ) ≤ ((q ⊔ 0) ⊓ ledger.paper_btc)
          * exec_px_of bb ba side ledger.slippage_bps :=
         mul_nonneg hq0 (le_of_lt h4)
       nlinarith [mul_nonneg hgross (sub_nonneg.mpr hf1)])

/-- C10 (witness): the invariant applied to a concrete SELL that empties
part of the base balance. -/
theorem apply_dry_run_trade_nonneg_witness :
    0 ≤ (apply_dry_run_trade
          { paper_usdt := 10, paper_btc := 2, fee_rate := 1/100,
            slippage_bps := 0, initial_equity_usdt := 210 }
          "DRY_RUN_SELL" true SELL 0 1 99 100).1.paper_usdt ∧
    0 ≤ (apply_dry_run_trade
          { paper_usdt := 10, paper_btc := 2, fee_rate := 1/100,
            slippage_bps := 0, initial_equity_usdt := 210 }
          "DRY_RUN_SELL" true SELL 0 1 99 100).1.paper_btc :=
  apply_dry_run_trade_nonneg _ "DRY_RUN_SELL" true SELL 0 1 99 100
    (by norm_num) (by norm_num) (by norm_num) (by norm_num)

/-! ## Claim theorems for the risk evaluator -/

lemma round_down_step_le_max (x s : ℚ) : round_down_step x s ≤ max x 0 := by
  unfold round_down_step
  split_ifs with hs
  · exact le_refl _
  · push_neg at hs
    calc (⌊max x 0 / s⌋ : ℚ) * s ≤ max x 0 / s * s :=
          mul_le_mul_of_nonneg_right (Int.floor_le _) (le_of_lt hs)
      _ = max x 0 := div_mul_cancel₀ _ (ne_of_gt hs)

lemma round_down_step_is_multiple (x s : ℚ) (hs : 0 < s) :
    ∃ k : ℤ, round_down_step x s = (k : ℚ) * s :=
  ⟨⌊max x 0 / s⌋, by unfold round_down_step; rw [if_neg (not_le.mpr hs)]⟩

set_option maxHeartbeats 1600000 in
/-- C4: `evaluate_pending_signal` is total (the embedding is a total
function) and its reject reason is decided by the first failing check in
the fixed order hold → bad_mid → invalid_imbalance → cooldown_active →
notional_below_min; only when all five pass can a side-specific reason (or
approval) be produced. -/
theorem evaluate_pending_signal_reject_order (pending_signal : String)
    (mid : ℚ) (imbalance : Option ℚ) (threshold_used : ℚ)
    (position_btc position_usdt : ℚ) (filters : SymbolFilters) (now_ts : ℚ)
    (last_trade_ts : Option ℚ) (cfg : RiskConfig) :
    (¬(pending_signal = BUY ∨ pending_signal = SELL) →
      (evaluate_pending_signal pending_signal mid imbalance threshold_used
        position_btc position_usdt filters now_ts last_trade_ts cfg).reject_reason
        = "hold" ∧
      (evaluate_pending_signal pending_signal mid imbalance threshold_used
        position_btc position_usdt filters now_ts last_trade_ts cfg).approved
        = false) ∧
    ((pending_signal = BUY ∨ pending_signal = SELL) → mid ≤ 0 →
      (evaluate_pending_signal pending_signal mid imbalance threshold_used
        position_btc position_usdt filters now_ts last_trade_ts cfg).reject_reason
        = "bad_mid") ∧
    ((pending_signal = BUY ∨ pending_signal = SELL) → 0 < mid →
      cfg.enable_position_sizing = true →
      compute_notional_target_usdt imbalance threshold_used cfg = none →
      (evaluate_pending_signal pending_signal mid imbalance threshold_used
        position_btc position_usdt filters now_ts last_trade_ts cfg).reject_reason
        = "invalid_imbalance") ∧
    ((pending_signal = BUY ∨ pending_signal = SELL) → 0 < mid →
      ¬(cfg.enable_position_sizing = true
        ∧ compute_notional_target_usdt imbalance threshold_used cfg = none) →
      cooldown_active now_ts last_trade_ts cfg.cooldown_seconds = true →
      (evaluate_pending_signal pending_signal mid imbalance threshold_used
        position_btc position_usdt filters now_ts last_trade_ts cfg).reject_reason
        = "cooldown_active") ∧
    ((pending_signal = BUY ∨ pending_signal = SELL) → 0 < mid →
      ¬(cfg.enable_position_sizing = true
        ∧ compute_notional_target_usdt imbalance threshold_used cfg = none) →
      cooldown_active now_ts last_trade_ts cfg.cooldown_seconds = false →
      cfg.enable_position_sizing = true →
      (compute_notional_target_usdt imbalance threshold_used cfg).getD 0
        < cfg.min_notional_per_trade_usdt →
      (evaluate_pending_signal pending_signal mid imbalance threshold_used
        position_btc position_usdt filters now_ts last_trade_ts cfg).reject_reason
        = "notional_below_min") ∧
    ((pending_signal = BUY ∨ pending_signal = SELL) → 0 < mid →
      ¬(cfg.enable_position_sizing = true
        ∧ compute_notional_target_usdt imbalance threshold_used cfg = none) →
      cooldown_active now_ts last_trade_ts cfg.cooldown_seconds = false →
      ¬(cfg.enable_position_sizing = true
        ∧ (if cfg.enable_position_sizing = true
           then (compute_notional_target_usdt imbalance threshold_used cfg).getD 0
           else cfg.max_notional_per_trade_usdt)
          < cfg.min_notional_per_trade_usdt) →
      (evaluate_pending_signal pending_signal mid imbalance threshold_used
        position_btc position_usdt filters now_ts last_trade_ts cfg).reject_reason
        ∉ (["hold", "bad_mid", "invalid_imbalance", "cooldown_active",
            "notional_below_min"] : List String)) := by
  refine ⟨?_, ?_, ?_, ?_, ?_, ?_⟩
  · intro h
    simp only [evaluate_pending_signal]
    rw [if_pos h]
    exact ⟨rfl, rfl⟩
  · intro hbs hmid
    simp only [evaluate_pending_signal]
    rw [if_neg (not_not_intro hbs), if_pos hmid]
  · intro hbs hmid hsz hnone
    simp only [evaluate_pending_signal]
    rw [if_neg (not_not_intro hbs), if_neg (not_le.mpr hmid), if_pos ⟨hsz, hnone⟩]
  · intro hbs hmid h3 hcd
    simp only [evaluate_pending_signal]
    rw [if_neg (not_not_intro hbs), if_neg (not_le.mpr hmid), if_neg h3,
        if_pos hcd]
  · intro hbs hmid h3 hcd hsz hlt
    simp only [evaluate_pending_signal]
    rw [if_neg (not_not_intro hbs), if_neg (not_le.mpr hmid), if_neg h3,
        if_neg (by simp [hcd]), if_pos hsz, if_pos ⟨hsz, hlt⟩]
  · intro hbs hmid h3 hcd h5
    simp only [evaluate_pending_signal]
    rw [if_neg (not_not_intro hbs), if_neg (not_le.mpr hmid), if_neg h3,
        if_neg (by simp [hcd]), if_neg h5]
    split_ifs <;> (simp only [List.mem_cons, List.not_mem_nil]; push_neg) <;> decide

/-- C4 (witness): the order theorem applied to a HOLD signal, which is
rejected with reason "hold". -/
theorem evaluate_pending_signal_reject_order_witness :
    (evaluate_pending_signal HOLD 1 (some 0) 0 0 0
      { min_qty := 0, max_qty := 0, step_size := 0, min_notional := 0 } 0 none
      { cooldown_seconds := 0, max_notional_per_trade_usdt := 10,
        min_notional_per_trade_usdt := 0, max_abs_position_btc := 1,
        max_consecutive_errors := 5, enable_position_sizing := false,
        position_sizing_mode := "linear_excess" }).reject_reason = "hold" ∧
    (evaluate_pending_signal HOLD 1 (some 0) 0 0 0
      { min_qty := 0, max_qty := 0, step_size := 0, min_notional := 0 } 0 none
      { cooldown_seconds := 0, max_notional_per_trade_usdt := 10,
        min_notional_per_trade_usdt := 0, max_abs_position_btc := 1,
        max_consecutive_errors := 5, enable_position_sizing := false,
        position_sizing_mode := "linear_excess" }).approved = false :=
  (evaluate_pending_signal_reject_order HOLD 1 (some 0) 0 0 0
      { min_qty := 0, max_qty := 0, step_size := 0, min_notional := 0 } 0 none
      { cooldown_seconds := 0, max_notional_per_trade_usdt := 10,
        min_notional_per_trade_usdt := 0, max_abs_position_btc := 1,
        max_consecutive_errors := 5, enable_position_sizing := false,
        position_sizing_mode := "linear_excess" }).1 (by decide)

set_option maxHeartbeats 1600000 in
/-- C5 (amended): an approved SELL quantity is exactly
min(available base, target_notional/mid) rounded *down* to the step size —
except that, precisely when that rounded value exceeds a positive
`filters.max_qty`, the quantity is re-rounded down from `max_qty` instead;
in every case the approved quantity is an integer multiple of a positive
step, never exceeds the available base balance (max(position, 0)); and with
step 0.001, available 0.0057 and an unconstraining notional target the
approved quantity is exactly 0.005. -/
theorem evaluate_sell_quantity_spec :
    (∀ (mid : ℚ) (imbalance : Option ℚ)
       (threshold_used position_btc position_usdt : ℚ)
       (filters : SymbolFilters) (now_ts : ℚ) (last_trade_ts : Option ℚ)
       (cfg : RiskConfig),
      (evaluate_pending_signal SELL mid imbalance threshold_used position_btc
        position_usdt filters now_ts last_trade_ts cfg).approved = true →
      ((evaluate_pending_signal SELL mid imbalance threshold_used position_btc
          position_usdt filters now_ts last_trade_ts cfg).quantity
        = if 0 < filters.max_qty ∧ filters.max_qty
              < round_down_step (min (max position_btc 0)
                  ((if cfg.enable_position_sizing = true
                    then (compute_notional_target_usdt imbalance threshold_used
                        cfg).getD 0
                    else cfg.max_notional_per_trade_usdt) / mid))
                  filters.step_size
          then round_down_step filters.max_qty filters.step_size
          else round_down_step (min (max position_btc 0)
              ((if cfg.enable_position_sizing = true
                then (compute_notional_target_usdt imbalance threshold_used
                    cfg).getD 0
                else cfg.max_notional_per_trade_usdt) / mid))
              filters.step_size) ∧
      (evaluate_pending_signal SELL mid imbalance threshold_used position_btc
        position_usdt filters now_ts last_trade_ts cfg).quantity
        ≤ max position_btc 0 ∧
      (0 < filters.step_size →
        ∃ k : ℤ, (evaluate_pending_signal SELL mid imbalance threshold_used
          position_btc position_usdt filters now_ts last_trade_ts cfg).quantity
          = (k : ℚ) * filters.step_size)) ∧
    ((evaluate_pending_signal SELL 1 (some 0) 0 (57/10000) 0
        { min_qty := 0, max_qty := 0, step_size := 1/1000, min_notional := 0 }
        0 none
        { cooldown_seconds := 0, max_notional_per_trade_usdt := 100,
          min_notional_per_trade_usdt := 0, max_abs_position_btc := 1,
          max_consecutive_errors := 5, enable_position_sizing := false,
          position_sizing_mode := "linear_excess" }).approved = true ∧
     (evaluate_pending_signal SELL 1 (some 0) 0 (57/10000) 0
        { min_qty := 0, max_qty := 0, step_size := 1/1000, min_notional := 0 }
        0 none
        { cooldown_seconds := 0, max_notional_per_trade_usdt := 100,
          min_notional_per_trade_usdt := 0, max_abs_position_btc := 1,
          max_consecutive_errors := 5, enable_position_sizing := false,
          position_sizing_mode := "linear_excess" }).quantity = 1/200) := by
  constructor
  · intro mid imb th pb pu f now lt cfg h
    simp only [evaluate_pending_signal, or_true, not_true, ite_false] at h ⊢
    rw [if_neg (by decide : ¬(SELL = BUY))] at h ⊢
    set Q := (if cfg.enable_position_sizing = true
      then (compute_notional_target_usdt imb th cfg).getD 0
      else cfg.max_notional_per_trade_usdt) with hQ
    set R := round_down_step ((pb ⊔ 0) ⊓ Q / mid) f.step_size with hR
    set R2 := round_down_step f.max_qty f.step_size with hR2
    have hRle : R ≤ pb ⊔ 0 := by
      rw [hR]
      exact le_trans (round_down_step_le_max _ _)
        (max_le inf_le_left (le_max_right _ _))
    by_cases c2 : mid ≤ 0
    · rw [if_pos c2] at h
      exact Bool.noConfusion h
    rw [if_neg c2] at h ⊢
    by_cases c3 : cfg.enable_position_sizing = true
        ∧ compute_notional_target_usdt imb th cfg = none
    · rw [if_pos c3] at h
      exact Bool.noConfusion h
    rw [if_neg c3] at h ⊢
    by_cases c4 : cooldown_active now lt cfg.cooldown_seconds = true
    · rw [if_pos c4] at h
      exact Bool.noConfusion h
    rw [if_neg c4] at h ⊢
    by_cases c5 : cfg.enable_position_sizing = true
        ∧ Q < cfg.min_notional_per_trade_usdt
    · rw [if_pos c5] at h
      exact Bool.noConfusion h
    rw [if_neg c5] at h ⊢
    by_cases c6 : pb ⊔ 0 ≤ 0
    · rw [if_pos c6] at h
      exact Bool.noConfusion h
    rw [if_neg c6] at h ⊢
    by_cases c7 : R ≤ 0
    · rw [if_pos c7] at h
      exact Bool.noConfusion h
    rw [if_neg c7] at h ⊢
    by_cases c8 : R < f.min_qty
    · rw [if_pos c8] at h
      exact Bool.noConfusion h
    rw [if_neg c8] at h ⊢
    by_cases c9 : 0 < f.max_qty ∧ f.max_qty < R
    · rw [if_pos c9] at h ⊢
      by_cases c10 : R2 < f.min_qty
      · rw [if_pos c10] at h
        exact Bool.noConfusion h
      rw [if_neg c10] at h ⊢
      by_cases c11 : R2 * mid < f.min_notional
      · rw [if_pos c11] at h
        exact Bool.noConfusion h
      rw [if_neg c11] at h ⊢
      rw [if_pos c9]
      refine ⟨rfl, ?_, fun hs => hR2 ▸ round_down_step_is_multiple _ _ hs⟩
      have hb : R2 ≤ f.max_qty := by
        rw [hR2]
        exact le_trans (round_down_step_le_max _ _) (max_le (le_refl _) c9.1.le)
      exact le_trans hb (le_trans c9.2.le hRle)
    rw [if_neg c9] at h ⊢
    by_cases c12 : R * mid < f.min_notional
    · rw [if_pos c12] at h
      exact Bool.noConfusion h
    rw [if_neg c12] at h ⊢
    rw [if_neg c9]
    exact ⟨rfl, hRle, fun hs => hR ▸ round_down_step_is_multiple _ _ hs⟩
  · constructor
    · norm_num [evaluate_pending_signal, round_down_step, cooldown_active,
        compute_notional_target_usdt, BUY, SELL]
      simp
    · norm_num [evaluate_pending_signal, round_down_step, cooldown_active,
        compute_notional_target_usdt, BUY, SELL]
      simp

/-- C5 (counterexample): the claim says the approved SELL quantity *is*
min(available, target/mid) rounded down to the step — but when that value
exceeds a positive `filters.max_qty` the code re-rounds down from `max_qty`
instead: with available 5, target/mid 3, step 0.001 and max_qty 1 the
approved quantity is 1, not the claimed round_down(min(5, 3)) = 3. -/
theorem evaluate_sell_quantity_cex :
    (evaluate_pending_signal SELL 1 (some 0) 0 5 0
        { min_qty := 1/2, max_qty := 1, step_size := 1/1000, min_notional := 0 }
        0 none
        { cooldown_seconds := 0, max_notional_per_trade_usdt := 3,
          min_notional_per_trade_usdt := 0, max_abs_position_btc := 1,
          max_consecutive_errors := 5, enable_position_sizing := false,
          position_sizing_mode := "linear_excess" }).approved = true ∧
    (evaluate_pending_signal SELL 1 (some 0) 0 5 0
        { min_qty := 1/2, max_qty := 1, step_size := 1/1000, min_notional := 0 }
        0 none
        { cooldown_seconds := 0, max_notional_per_trade_usdt := 3,
          min_notional_per_trade_usdt := 0, max_abs_position_btc := 1,
          max_consecutive_errors := 5, enable_position_sizing := false,
          position_sizing_mode := "linear_excess" }).quantity = 1 ∧
    round_down_step (min (max (5 : ℚ) 0) (3 / 1)) (1/1000) = 3 ∧
    (1 : ℚ) ≠ 3 := by
  refine ⟨?_, ?_, ?_, by norm_num⟩ <;>
    (norm_num [evaluate_pending_signal, round_down_step, cooldown_active,
       compute_notional_target_usdt, BUY, SELL]
     try simp)

/-- C5 (witness): the amended theorem applied at the concrete example of the
claim (step 0.001, available 0.0057, unconstraining target). -/
theorem evaluate_sell_quantity_spec_witness :
    ((evaluate_pending_signal SELL 1 (some 0) 0 (57/10000) 0
        { min_qty := 0, max_qty := 0, step_size := 1/1000, min_notional := 0 }
        0 none
        { cooldown_seconds := 0, max_notional_per_trade_usdt := 100,
          min_notional_per_trade_usdt := 0, max_abs_position_btc := 1,
          max_consecutive_errors := 5, enable_position_sizing := false,
          position_sizing_mode := "linear_excess" }).quantity
        = if 0 < (0 : ℚ) ∧ (0 : ℚ)
              < round_down_step (min (max (57/10000 : ℚ) 0)
                  ((if ({ cooldown_seconds := 0,
                          max_notional_per_trade_usdt := 100,
                          min_notional_per_trade_usdt := 0,
                          max_abs_position_btc := 1,
                          max_consecutive_errors := 5,
                          enable_position_sizing := false,
                          position_sizing_mode := "linear_excess" }
                            : RiskConfig).enable_position_sizing = true
                    then (compute_notional_target_usdt (some 0) 0
                      { cooldown_seconds := 0,
                        max_notional_per_trade_usdt := 100,
                        min_notional_per_trade_usdt := 0,
                        max_abs_position_btc := 1,
                        max_consecutive_errors := 5,
                        enable_position_sizing := false,
                        position_sizing_mode := "linear_excess" }).getD 0
                    else (100 : ℚ)) / 1)) (1/1000)
          then round_down_step (0 : ℚ) (1/1000)
          else round_down_step (min (max (57/10000 : ℚ) 0)
              ((if ({ cooldown_seconds := 0, max_notional_per_trade_usdt := 100,
                      min_notional_per_trade_usdt := 0,
                      max_abs_position_btc := 1,
                      max_consecutive_errors := 5,
                      enable_position_sizing := false,
                      position_sizing_mode := "linear_excess" }
                        : RiskConfig).enable_position_sizing = true
                then (compute_notional_target_usdt (some 0) 0
                  { cooldown_seconds := 0, max_notional_per_trade_usdt := 100,
                    min_notional_per_trade_usdt := 0,
                    max_abs_position_btc := 1,
                    max_consecutive_errors := 5,
                    enable_position_sizing := false,
                    position_sizing_mode := "linear_excess" }).getD 0
                else (100 : ℚ)) / 1)) (1/1000)) ∧
    (evaluate_pending_signal SELL 1 (some 0) 0 (57/10000) 0
        { min_qty := 0, max_qty := 0, step_size := 1/1000, min_notional := 0 }
        0 none
        { cooldown_seconds := 0, max_notional_per_trade_usdt := 100,
          min_notional_per_trade_usdt := 0, max_abs_position_btc := 1,
          max_consecutive_errors := 5, enable_position_sizing := false,
          position_sizing_mode := "linear_excess" }).quantity
      ≤ max (57/10000 : ℚ) 0 ∧
    (0 < (1/1000 : ℚ) →
      ∃ k : ℤ, (evaluate_pending_signal SELL 1 (some 0) 0 (57/10000) 0
        { min_qty := 0, max_qty := 0, step_size := 1/1000, min_notional := 0 }
        0 none
        { cooldown_seconds := 0, max_notional_per_trade_usdt := 100,
          min_notional_per_trade_usdt := 0, max_abs_position_btc := 1,
          max_consecutive_errors := 5, enable_position_sizing := false,
          position_sizing_mode := "linear_excess" }).quantity
        = (k : ℚ) * (1/1000)) :=
  evaluate_sell_quantity_spec.1 1 (some 0) 0 (57/10000) 0
    { min_qty := 0, max_qty := 0, step_size := 1/1000, min_notional := 0 }
    0 none
    { cooldown_seconds := 0, max_notional_per_trade_usdt := 100,
      min_notional_per_trade_usdt := 0, max_abs_position_btc := 1,
      max_consecutive_errors := 5, enable_position_sizing := false,
      position_sizing_mode := "linear_excess" }
    evaluate_sell_quantity_spec.2.1

/-! ## Claim theorem for `_calibrate_threshold` (C1) -/

set_option maxHeartbeats 800000 in
/-- C1: over a window of exactly W labeled observations, every grid
candidate θ selects the observations with imbalance > θ (+forward_return)
or < −θ (−forward_return); a candidate with fewer than `min_trades`
selections is skipped, otherwise it is scored μ/(sd/√n) with sd the sample
standard deviation (n−1 denominator, 0 if n ≤ 1 or variance ≤ 0), score +∞
when sd = 0 and μ > 0 and −∞ when sd = 0 and μ ≤ 0, and adjusted score =
score − α·(n/W); the returned candidate is the earliest-scanned one with
the strictly highest adjusted score, and when no candidate reaches
`min_trades` the report carries reason "no_valid_candidate" and no
theta_hat. -/
theorem calibrate_threshold_spec (sqrtQ : ℚ → ℚ) (W min_trades : ℕ)
    (alpha : ℚ) (grid : List ℚ) (obs : List LabeledObservation)
    (hlen : obs.length = W) (hmt : 1 ≤ min_trades)
    (hsq : ∀ x : ℚ, 0 < x → 0 < sqrtQ x) (hg : grid ≠ []) :
    (∀ theta ∈ grid,
      ((signed_returns theta obs).length < min_trades →
        eval_candidate sqrtQ W min_trades alpha obs theta = none) ∧
      (min_trades ≤ (signed_returns theta obs).length →
        ∃ c, eval_candidate sqrtQ W min_trades alpha obs theta = some c ∧
          c.theta_hat = theta ∧
          c.n = (signed_returns theta obs).length ∧
          c.trade_rate = ((signed_returns theta obs).length : ℚ) / (W : ℚ) ∧
          c.score_adj = c.score.subQ (alpha * c.trade_rate) ∧
          ((signed_returns theta obs).length ≤ 1 ∨
              sample_var (signed_returns theta obs)
                (sample_mean (signed_returns theta obs)) ≤ 0 →
            c.score = if 0 < sample_mean (signed_returns theta obs)
              then Score.posInf else Score.negInf) ∧
          (1 < (signed_returns theta obs).length →
            0 < sample_var (signed_returns theta obs)
                (sample_mean (signed_returns theta obs)) →
            c.score = Score.val (sample_mean (signed_returns theta obs) /
              (sqrtQ (sample_var (signed_returns theta obs)
                  (sample_mean (signed_returns theta obs)))
                / sqrtQ ((signed_returns theta obs).length : ℚ)))))) ∧
    ((∀ theta ∈ grid, (signed_returns theta obs).length < min_trades) →
      calibrate_threshold sqrtQ W min_trades alpha grid obs =
        { theta_hat := none, score := .negInf, score_adj := .negInf, n := 0,
          trade_rate := 0, window_obs := W,
          reason := "no_valid_candidate" }) ∧
    (∀ cands,
      cands = grid.filterMap (eval_candidate sqrtQ W min_trades alpha obs) →
      cands ≠ [] →
      ∃ i, ∃ hi : i < cands.length,
        calibrate_threshold sqrtQ W min_trades alpha grid obs =
          { theta_hat := some ((cands.get ⟨i, hi⟩).theta_hat),
            score := (cands.get ⟨i, hi⟩).score,
            score_adj := (cands.get ⟨i, hi⟩).score_adj,
            n := (cands.get ⟨i, hi⟩).n,
            trade_rate := (cands.get ⟨i, hi⟩).trade_rate,
            window_obs := W, reason := "ok" } ∧
        (∀ c ∈ cands,
          Score.ltB ((cands.get ⟨i, hi⟩)).score_adj c.score_adj = false) ∧
        (∀ j, ∀ hj : j < cands.length, j < i →
          Score.ltB ((cands.get ⟨j, hj⟩)).score_adj
            ((cands.get ⟨i, hi⟩)).score_adj = true)) := by
  subst hlen
  refine ⟨?_, ?_, ?_⟩
  · intro theta _
    constructor
    · intro hlt
      simp only [eval_candidate]
      rw [if_pos hlt]
    · intro hge
      simp only [eval_candidate]
      rw [if_neg (not_lt.mpr hge)]
      refine ⟨_, rfl, rfl, rfl, rfl, rfl, ?_, ?_⟩
      · intro hdeg
        have hsd : std_sample sqrtQ (signed_returns theta obs)
            (sample_mean (signed_returns theta obs)) = 0 := by
          simp only [std_sample]
          rcases hdeg with h | h
          · rw [if_pos h]
          · by_cases hl : (signed_returns theta obs).length ≤ 1
            · rw [if_pos hl]
            · rw [if_neg hl, if_pos h]
        simp [hsd]
      · intro hn hvar
        have hsd : std_sample sqrtQ (signed_returns theta obs)
            (sample_mean (signed_returns theta obs))
            = sqrtQ (sample_var (signed_returns theta obs)
                (sample_mean (signed_returns theta obs))) := by
          simp only [std_sample]
          rw [if_neg (not_le.mpr hn), if_neg (not_le.mpr hvar)]
        have hpos : (0 : ℚ) < sqrtQ (sample_var (signed_returns theta obs)
            (sample_mean (signed_returns theta obs))) := hsq _ hvar
        simp only [hsd, if_neg (ne_of_gt hpos)]
  · intro hall
    have hcands : grid.filterMap
        (eval_candidate sqrtQ obs.length min_trades alpha obs) = [] := by
      rw [List.filterMap_eq_nil]
      intro theta htheta
      simp only [eval_candidate]
      rw [if_pos (hall theta htheta)]
    simp only [calibrate_threshold]
    rw [if_neg (lt_irrefl obs.length), if_neg hg, foldl_best_none, hcands]
  · intro cands hceq hcne
    obtain ⟨c, cs, hcc⟩ := List.exists_cons_of_ne_nil hcne
    subst hcc
    obtain ⟨i, hi, heq, hdom, hstrict⟩ := first_max_spec cs c
    refine ⟨i, hi, ?_, ?_, ?_⟩
    · simp only [calibrate_threshold]
      rw [if_neg (lt_irrefl obs.length), if_neg hg, foldl_best_none, ← hceq,
        ← heq]
    · intro x hx
      rw [← heq]
      exact hdom x hx
    · intro j hj hji
      rw [← heq]
      exact hstrict j hj hji

/-- C1 (witness): the calibration theorem applied with the identity as
square root, W = 2, min_trades = 1, α = 0, grid [1/2] and the window
[(1, 1), (1, 2)]. -/
theorem calibrate_threshold_spec_witness :
    (∀ theta ∈ ([1/2] : List ℚ),
      ((signed_returns theta [⟨1, 1⟩, ⟨1, 2⟩]).length < 1 →
        eval_candidate (fun x => x) 2 1 0 [⟨1, 1⟩, ⟨1, 2⟩] theta = none) ∧
      (1 ≤ (signed_returns theta [⟨1, 1⟩, ⟨1, 2⟩]).length →
        ∃ c, eval_candidate (fun x => x) 2 1 0 [⟨1, 1⟩, ⟨1, 2⟩] theta
            = some c ∧
          c.theta_hat = theta ∧
          c.n = (signed_returns theta [⟨1, 1⟩, ⟨1, 2⟩]).length ∧
          c.trade_rate
            = ((signed_returns theta [⟨1, 1⟩, ⟨1, 2⟩]).length : ℚ) / (2 : ℕ) ∧
          c.score_adj = c.score.subQ (0 * c.trade_rate) ∧
          ((signed_returns theta [⟨1, 1⟩, ⟨1, 2⟩]).length ≤ 1 ∨
              sample_var (signed_returns theta [⟨1, 1⟩, ⟨1, 2⟩])
                (sample_mean (signed_returns theta [⟨1, 1⟩, ⟨1, 2⟩])) ≤ 0 →
            c.score = if 0 < sample_mean (signed_returns theta [⟨1, 1⟩, ⟨1, 2⟩])
              then Score.posInf else Score.negInf) ∧
          (1 < (signed_returns theta [⟨1, 1⟩, ⟨1, 2⟩]).length →
            0 < sample_var (signed_returns theta [⟨1, 1⟩, ⟨1, 2⟩])
                (sample_mean (signed_returns theta [⟨1, 1⟩, ⟨1, 2⟩])) →
            c.score = Score.val
              (sample_mean (signed_returns theta [⟨1, 1⟩, ⟨1, 2⟩]) /
                ((fun x => x) (sample_var (signed_returns theta [⟨1, 1⟩, ⟨1, 2⟩])
                    (sample_mean (signed_returns theta [⟨1, 1⟩, ⟨1, 2⟩])))
                  / (fun x => x)
                      ((signed_returns theta [⟨1, 1⟩, ⟨1, 2⟩]).length : ℚ)))))) ∧
    ((∀ theta ∈ ([1/2] : List ℚ),
        (signed_returns theta [⟨1, 1⟩, ⟨1, 2⟩]).length < 1) →
      calibrate_threshold (fun x => x) 2 1 0 [1/2] [⟨1, 1⟩, ⟨1, 2⟩] =
        { theta_hat := none, score := .negInf, score_adj := .negInf, n := 0,
          trade_rate := 0, window_obs := 2,
          reason := "no_valid_candidate" }) ∧
    (∀ cands,
      cands = ([1/2] : List ℚ).filterMap
        (eval_candidate (fun x => x) 2 1 0 [⟨1, 1⟩, ⟨1, 2⟩]) →
      cands ≠ [] →
      ∃ i, ∃ hi : i < cands.length,
        calibrate_threshold (fun x => x) 2 1 0 [1/2] [⟨1, 1⟩, ⟨1, 2⟩] =
          { theta_hat := some ((cands.get ⟨i, hi⟩).theta_hat),
            score := (cands.get ⟨i, hi⟩).score,
            score_adj := (cands.get ⟨i, hi⟩).score_adj,
            n := (cands.get ⟨i, hi⟩).n,
            trade_rate := (cands.get ⟨i, hi⟩).trade_rate,
            window_obs := 2, reason := "ok" } ∧
        (∀ c ∈ cands,
          Score.ltB ((cands.get ⟨i, hi⟩)).score_adj c.score_adj = false) ∧
        (∀ j, ∀ hj : j < cands.length, j < i →
          Score.ltB ((cands.get ⟨j, hj⟩)).score_adj
            ((cands.get ⟨i, hi⟩)).score_adj = true)) :=
  calibrate_threshold_spec (fun x => x) 2 1 0 [1/2] [⟨1, 1⟩, ⟨1, 2⟩]
    rfl (le_refl 1) (fun _ hx => hx) (by simp)

/-! ## Claim theorems for the calibrator state machine (C2, C9) -/

/-- C9: in warmup_then_trade mode, starting from a fresh calibrator, the
state stays WARMUP (with no live threshold) as long as fewer than W labeled
observations have accumulated; and once theta_live has been set it never
changes on any later `update` or `current_threshold` call — every
subsequent `current_threshold` still returns it. -/
theorem warmup_then_trade_c9 (sqrtQ : ℚ → ℚ) (W H : ℕ)
    (gmin gmax gstep : ℚ) (mt : ℕ) (alpha lam : ℚ) (hp : ℕ)
    (ops ops₂ : List CalOp) (θ d : ℚ) :
    ((run_calibrator sqrtQ
        (Calibrator.init MODE_WARMUP_THEN_TRADE W H gmin gmax gstep mt alpha
          lam hp) ops).labeled_obs.length < W →
      (run_calibrator sqrtQ
        (Calibrator.init MODE_WARMUP_THEN_TRADE W H gmin gmax gstep mt alpha
          lam hp) ops).state = WARMUP ∧
      (run_calibrator sqrtQ
        (Calibrator.init MODE_WARMUP_THEN_TRADE W H gmin gmax gstep mt alpha
          lam hp) ops).theta_live = none) ∧
    ((run_calibrator sqrtQ
        (Calibrator.init MODE_WARMUP_THEN_TRADE W H gmin gmax gstep mt alpha
          lam hp) ops).theta_live = some θ →
      (run_calibrator sqrtQ
        (Calibrator.init MODE_WARMUP_THEN_TRADE W H gmin gmax gstep mt alpha
          lam hp) (ops ++ ops₂)).theta_live = some θ ∧
      ((run_calibrator sqrtQ
        (Calibrator.init MODE_WARMUP_THEN_TRADE W H gmin gmax gstep mt alpha
          lam hp) (ops ++ ops₂)).current_threshold d).1 = θ ∧
      (((run_calibrator sqrtQ
        (Calibrator.init MODE_WARMUP_THEN_TRADE W H gmin gmax gstep mt alpha
          lam hp) (ops ++ ops₂)).current_threshold d).2).theta_live
        = some θ) := by
  constructor
  · intro h
    have hinv := run_warmup_invariant sqrtQ ops
      (Calibrator.init MODE_WARMUP_THEN_TRADE W H gmin gmax gstep mt alpha
        lam hp) rfl (by simp [Calibrator.init]) (fun _ => ⟨rfl, rfl⟩)
    exact hinv.2.2.2 h
  · intro h
    rw [run_calibrator_append]
    have hm := (run_warmup_invariant sqrtQ ops
      (Calibrator.init MODE_WARMUP_THEN_TRADE W H gmin gmax gstep mt alpha
        lam hp) rfl (by simp [Calibrator.init]) (fun _ => ⟨rfl, rfl⟩)).1
    obtain ⟨l1, _⟩ := run_warmup_live sqrtQ ops₂ _ θ hm h
    refine ⟨l1, ?_, ?_⟩
    · simp [Calibrator.current_threshold, l1]
    · obtain ⟨_, _, _, t4, _⟩ := current_threshold_fields
        (run_calibrator sqrtQ (run_calibrator sqrtQ
          (Calibrator.init MODE_WARMUP_THEN_TRADE W H gmin gmax gstep mt
            alpha lam hp) ops) ops₂) d
      rw [t4, l1]

lemma threshold_grid_half : threshold_grid (1/2) (1/2) 1 = [1/2] := by
  rw [threshold_grid, show (10000 : ℕ) = 9999 + 1 from rfl, threshold_grid_aux]
  rw [if_pos (by norm_num : (1/2 : ℚ) ≤ 1/2 + 1/1000000000000)]
  rw [if_pos (by norm_num : (0 : ℚ) < 1/2)]
  rw [show (9999 : ℕ) = 9998 + 1 from rfl, threshold_grid_aux]
  rw [if_neg (by norm_num : ¬((1/2 : ℚ) + 1 ≤ 1/2 + 1/1000000000000))]
  norm_num [pyRound10, round_half_even]

lemma calibrate_ok_example :
    calibrate_threshold (fun x => x) 1 1 0 [1/2] [⟨1, 0⟩] =
      { theta_hat := some (1/2), score := .negInf, score_adj := .negInf,
        n := 1, trade_rate := 1, window_obs := 1, reason := "ok" } := by
  norm_num [calibrate_threshold, eval_candidate, signed_returns, sample_mean,
    std_sample, best_step, first_max, Score.subQ, List.filterMap_cons,
    List.filterMap_nil, List.foldl_cons, List.foldl_nil]

lemma calibrate_nvc_example :
    calibrate_threshold (fun x => x) 1 1 0 [1/2] [⟨0, 0⟩] =
      { theta_hat := none, score := .negInf, score_adj := .negInf, n := 0,
        trade_rate := 0, window_obs := 1,
        reason := "no_valid_candidate" } := by
  norm_num [calibrate_threshold, eval_candidate, signed_returns, sample_mean,
    std_sample, best_step, first_max, Score.subQ, List.filterMap_cons,
    List.filterMap_nil, List.foldl_cons, List.foldl_nil]

set_option maxHeartbeats 1600000 in
/-- Concrete warmup-mode run (W = 1, H = 1, grid {1/2}): two updates fill
the window and the first calibration sets theta_live = 1/2. -/
lemma warmup_trace_live :
    (run_calibrator (fun x => x)
      (Calibrator.init MODE_WARMUP_THEN_TRADE 1 1 (1/2) (1/2) 1 1 0 0 1)
      [CalOp.upd ⟨1, 1, 1⟩, CalOp.upd ⟨1, 1, 0⟩]).theta_live
      = some (1/2) := by
  norm_num +decide [run_calibrator, Calibrator.init, Calibrator.update,
    observe_snapshot, update_warmup_then_trade, attempt_calibration,
    threshold_grid_half, calibrate_ok_example, safe_mid, dequePush,
    WARMUP, CALIBRATING, TRADING, MODE_WARMUP_THEN_TRADE,
    MODE_ROLLING_WALK_FORWARD]

/-- C9 (witness): the warmup theorem applied to a fresh calibrator (first
clause, empty run) and to a concrete run whose first calibration sets
theta_live = 1/2 (second clause, extended by a `current_threshold` call). -/
theorem warmup_then_trade_c9_witness :
    ((run_calibrator (fun x => x)
        (Calibrator.init MODE_WARMUP_THEN_TRADE 1 1 (1/2) (1/2) 1 1 0 0 1)
        []).state = WARMUP ∧
     (run_calibrator (fun x => x)
        (Calibrator.init MODE_WARMUP_THEN_TRADE 1 1 (1/2) (1/2) 1 1 0 0 1)
        []).theta_live = none) ∧
    ((run_calibrator (fun x => x)
        (Calibrator.init MODE_WARMUP_THEN_TRADE 1 1 (1/2) (1/2) 1 1 0 0 1)
        ([CalOp.upd ⟨1, 1, 1⟩, CalOp.upd ⟨1, 1, 0⟩] ++ [CalOp.thr 0])).theta_live
        = some (1/2) ∧
     ((run_calibrator (fun x => x)
        (Calibrator.init MODE_WARMUP_THEN_TRADE 1 1 (1/2) (1/2) 1 1 0 0 1)
        ([CalOp.upd ⟨1, 1, 1⟩, CalOp.upd ⟨1, 1, 0⟩]
          ++ [CalOp.thr 0])).current_threshold 5).1 = 1/2 ∧
     (((run_calibrator (fun x => x)
        (Calibrator.init MODE_WARMUP_THEN_TRADE 1 1 (1/2) (1/2) 1 1 0 0 1)
        ([CalOp.upd ⟨1, 1, 1⟩, CalOp.upd ⟨1, 1, 0⟩]
          ++ [CalOp.thr 0])).current_threshold 5).2).theta_live
        = some (1/2)) :=
  ⟨(warmup_then_trade_c9 (fun x => x) 1 1 (1/2) (1/2) 1 1 0 0 1 [] [] 0
      0).1 (by decide),
   (warmup_then_trade_c9 (fun x => x) 1 1 (1/2) (1/2) 1 1 0 0 1
      [CalOp.upd ⟨1, 1, 1⟩, CalOp.upd ⟨1, 1, 0⟩] [CalOp.thr 0] (1/2) 5).2
      warmup_trace_live⟩

set_option maxHeartbeats 800000 in
/-- C2 (amended): in rolling_walk_forward mode, while a live threshold
exists, `current_threshold` increments the polls counter exactly when the
state is TRADING or CALIBRATING; an update with a usable snapshot attempts
recalibration exactly when the counter has reached the trade horizon; every
such attempt — successful or not — resets the counter to zero (so the
counter measures polls since the last calibration *attempt*, not since the
last successful calibration); otherwise the counter is unchanged.  The
instrumentation counter `polls_since_success`, incremented in lockstep,
witnesses the difference: a failed attempt (no theta_hat in the report)
preserves it while a successful attempt zeroes it. -/
theorem rolling_counter_spec (sqrtQ : ℚ → ℚ) (c : Calibrator) (s : Snapshot)
    (d : ℚ) (hmode : c.mode = MODE_ROLLING_WALK_FORWARD)
    (hlive : c.theta_live ≠ none) :
    (((c.current_threshold d).2).trade_polls_since_calibration
      = c.trade_polls_since_calibration
        + (if c.state = TRADING ∨ c.state = CALIBRATING then 1 else 0)) ∧
    (0 < safe_mid s.bid s.ask →
      ((Calibrator.update sqrtQ c s).attempt_count = c.attempt_count + 1
        ↔ c.trade_horizon ≤ c.trade_polls_since_calibration)) ∧
    (0 < safe_mid s.bid s.ask →
      c.trade_horizon ≤ c.trade_polls_since_calibration →
      (Calibrator.update sqrtQ c s).trade_polls_since_calibration = 0) ∧
    (0 < safe_mid s.bid s.ask →
      c.trade_polls_since_calibration < c.trade_horizon →
      (Calibrator.update sqrtQ c s).trade_polls_since_calibration
        = c.trade_polls_since_calibration) ∧
    (safe_mid s.bid s.ask ≤ 0 →
      (Calibrator.update sqrtQ c s).attempt_count = c.attempt_count ∧
      (Calibrator.update sqrtQ c s).trade_polls_since_calibration
        = c.trade_polls_since_calibration) ∧
    (((c.current_threshold d).2).polls_since_success
      = c.polls_since_success
        + (if c.state = TRADING ∨ c.state = CALIBRATING then 1 else 0)) ∧
    (0 < safe_mid s.bid s.ask →
      c.trade_horizon ≤ c.trade_polls_since_calibration →
      (Calibrator.update sqrtQ c s).last_report.theta_hat = none →
      (Calibrator.update sqrtQ c s).polls_since_success
        = c.polls_since_success) ∧
    (0 < safe_mid s.bid s.ask →
      c.trade_horizon ≤ c.trade_polls_since_calibration →
      (Calibrator.update sqrtQ c s).last_report.theta_hat ≠ none →
      (Calibrator.update sqrtQ c s).polls_since_success = 0) := by
  have hup : ∀ hm : 0 < safe_mid s.bid s.ask,
      Calibrator.update sqrtQ c s = update_rolling_walk_forward sqrtQ
        (observe_snapshot
          (if c.state = CALIBRATING then { c with state := TRADING } else c)
          s.imbalance (safe_mid s.bid s.ask)) := by
    intro hm
    simp only [Calibrator.update]
    rw [if_neg (not_le.mpr hm)]
    have ho := (observe_snapshot_fields
      (if c.state = CALIBRATING then { c with state := TRADING } else c)
      s.imbalance (safe_mid s.bid s.ask)).1
    have hm1 : (if c.state = CALIBRATING then { c with state := TRADING }
        else c).mode = c.mode := by split_ifs <;> rfl
    rw [if_neg (by rw [ho, hm1, hmode]; decide)]
  have h1 : (if c.state = CALIBRATING then { c with state := TRADING }
      else c).theta_live = c.theta_live ∧
      (if c.state = CALIBRATING then { c with state := TRADING }
        else c).trade_horizon = c.trade_horizon ∧
      (if c.state = CALIBRATING then { c with state := TRADING }
        else c).trade_polls_since_calibration
        = c.trade_polls_since_calibration ∧
      (if c.state = CALIBRATING then { c with state := TRADING }
        else c).attempt_count = c.attempt_count ∧
      (if c.state = CALIBRATING then { c with state := TRADING }
        else c).polls_since_success = c.polls_since_success := by
    split_ifs <;> exact ⟨rfl, rfl, rfl, rfl, rfl⟩
  obtain ⟨_, _, o3, _, o5, o6, o7, o8, _⟩ := observe_snapshot_fields
    (if c.state = CALIBRATING then { c with state := TRADING } else c)
    s.imbalance (safe_mid s.bid s.ask)
  have hlive2 : (observe_snapshot
      (if c.state = CALIBRATING then { c with state := TRADING } else c)
      s.imbalance (safe_mid s.bid s.ask)).theta_live ≠ none := by
    rw [o5, h1.1]; exact hlive
  refine ⟨?_, ?_, ?_, ?_, ?_, ?_, ?_, ?_⟩
  · simp only [Calibrator.current_threshold]
    by_cases hst : c.state = TRADING ∨ c.state = CALIBRATING
    · rw [if_pos ⟨hmode, hlive, hst⟩, if_pos hst]
    · rw [if_neg (by simp [hst]), if_neg hst]
      omega
  · intro hm
    rw [hup hm]
    by_cases hh : c.trade_horizon ≤ c.trade_polls_since_calibration
    · rw [(update_rolling_walk_forward_cases sqrtQ _ hlive2).1
        (by rw [o3, h1.2.1, o6, h1.2.2.1]; exact hh)]
      obtain ⟨_, _, _, a4, _⟩ := attempt_calibration_fields sqrtQ
        (observe_snapshot
          (if c.state = CALIBRATING then { c with state := TRADING } else c)
          s.imbalance (safe_mid s.bid s.ask))
      rw [a4, o7, h1.2.2.2.1]
      simp [hh]
    · obtain ⟨r1, _, _⟩ := (update_rolling_walk_forward_cases sqrtQ _
        hlive2).2 (by rw [o6, h1.2.2.1, o3, h1.2.1]; exact not_le.mp hh)
      rw [r1, o7, h1.2.2.2.1]
      simp [hh]
  · intro hm hh
    rw [hup hm]
    rw [(update_rolling_walk_forward_cases sqrtQ _ hlive2).1
      (by rw [o3, h1.2.1, o6, h1.2.2.1]; exact hh)]
    exact (attempt_calibration_fields sqrtQ _).2.2.2.2 hlive2
  · intro hm hh
    rw [hup hm]
    obtain ⟨_, r2, _⟩ := (update_rolling_walk_forward_cases sqrtQ _
      hlive2).2 (by rw [o6, h1.2.2.1, o3, h1.2.1]; exact hh)
    rw [r2, o6, h1.2.2.1]
  · intro hm
    simp only [Calibrator.update]
    rw [if_pos hm]
    exact ⟨h1.2.2.2.1, h1.2.2.1⟩
  · simp only [Calibrator.current_threshold]
    by_cases hst : c.state = TRADING ∨ c.state = CALIBRATING
    · rw [if_pos ⟨hmode, hlive, hst⟩, if_pos hst]
    · rw [if_neg (by simp [hst]), if_neg hst]
      omega
  · intro hm hh hnone
    rw [hup hm] at hnone ⊢
    rw [(update_rolling_walk_forward_cases sqrtQ _ hlive2).1
      (by rw [o3, h1.2.1, o6, h1.2.2.1]; exact hh)] at hnone ⊢
    have hg := (attempt_calibration_ghost sqrtQ _).1 hnone
    rw [hg, o8, h1.2.2.2.2]
  · intro hm hh hne
    rw [hup hm] at hne ⊢
    rw [(update_rolling_walk_forward_cases sqrtQ _ hlive2).1
      (by rw [o3, h1.2.1, o6, h1.2.2.1]; exact hh)] at hne ⊢
    exact (attempt_calibration_ghost sqrtQ _).2 hne

/-- A calibrator mid-run in rolling mode with a live threshold, used to
instantiate the counter theorem. -/
def rollingMidRun : Calibrator :=
  { mode := MODE_ROLLING_WALK_FORWARD, window_size := 1, trade_horizon := 1
    grid_min := 1/2, grid_max := 1/2, grid_step := 1, min_trades := 1
    turnover_penalty_alpha := 0, ema_lambda := 0, horizon_polls := 1
    state := TRADING
    last_report := { theta_hat := some (1/2), score := .negInf,
                     score_adj := .negInf, n := 1, trade_rate := 1,
                     window_obs := 1, reason := "ok",
                     theta_live := some (1/2) }
    labeled_obs := [⟨1, 0⟩], pending_obs := [], theta_hat := some (1/2)
    theta_live := some (1/2), trade_polls_since_calibration := 1
    attempt_count := 1, polls_since_success := 1 }

/-- C2 (witness): the counter theorem applied to `rollingMidRun` with the
snapshot (bid 1, ask 1, imbalance 0) and default threshold 0. -/
theorem rolling_counter_spec_witness :
    (((rollingMidRun.current_threshold 0).2).trade_polls_since_calibration
      = rollingMidRun.trade_polls_since_calibration
        + (if rollingMidRun.state = TRADING ∨ rollingMidRun.state = CALIBRATING
           then 1 else 0)) ∧
    (0 < safe_mid (1 : ℚ) 1 →
      ((Calibrator.update (fun x => x) rollingMidRun ⟨1, 1, 0⟩).attempt_count
          = rollingMidRun.attempt_count + 1
        ↔ rollingMidRun.trade_horizon
          ≤ rollingMidRun.trade_polls_since_calibration)) ∧
    (0 < safe_mid (1 : ℚ) 1 →
      rollingMidRun.trade_horizon
        ≤ rollingMidRun.trade_polls_since_calibration →
      (Calibrator.update (fun x => x) rollingMidRun
        ⟨1, 1, 0⟩).trade_polls_since_calibration = 0) ∧
    (0 < safe_mid (1 : ℚ) 1 →
      rollingMidRun.trade_polls_since_calibration
        < rollingMidRun.trade_horizon →
      (Calibrator.update (fun x => x) rollingMidRun
        ⟨1, 1, 0⟩).trade_polls_since_calibration
        = rollingMidRun.trade_polls_since_calibration) ∧
    (safe_mid (1 : ℚ) 1 ≤ 0 →
      (Calibrator.update (fun x => x) rollingMidRun ⟨1, 1, 0⟩).attempt_count
        = rollingMidRun.attempt_count ∧
      (Calibrator.update (fun x => x) rollingMidRun
        ⟨1, 1, 0⟩).trade_polls_since_calibration
        = rollingMidRun.trade_polls_since_calibration) ∧
    (((rollingMidRun.current_threshold 0).2).polls_since_success
      = rollingMidRun.polls_since_success
        + (if rollingMidRun.state = TRADING ∨ rollingMidRun.state = CALIBRATING
           then 1 else 0)) ∧
    (0 < safe_mid (1 : ℚ) 1 →
      rollingMidRun.trade_horizon
        ≤ rollingMidRun.trade_polls_since_calibration →
      (Calibrator.update (fun x => x) rollingMidRun
        ⟨1, 1, 0⟩).last_report.theta_hat = none →
      (Calibrator.update (fun x => x) rollingMidRun
        ⟨1, 1, 0⟩).polls_since_success
        = rollingMidRun.polls_since_success) ∧
    (0 < safe_mid (1 : ℚ) 1 →
      rollingMidRun.trade_horizon
        ≤ rollingMidRun.trade_polls_since_calibration →
      (Calibrator.update (fun x => x) rollingMidRun
        ⟨1, 1, 0⟩).last_report.theta_hat ≠ none →
      (Calibrator.update (fun x => x) rollingMidRun
        ⟨1, 1, 0⟩).polls_since_success = 0) :=
  rolling_counter_spec (fun x => x) rollingMidRun ⟨1, 1, 0⟩ 0 rfl
    (by simp [rollingMidRun])

set_option maxHeartbeats 1600000 in
/-- Concrete rolling-mode run (W = 1, trade horizon 1, grid {1/2}): the
second update calibrates successfully (theta_live = 1/2); one poll is
counted; the fourth update re-attempts and *fails* ("no_valid_candidate"),
yet resets the polls counter to 0 while only 1 poll has elapsed since the
last successful calibration. -/
lemma rolling_trace_eval :
    run_calibrator (fun x => x)
      (Calibrator.init MODE_ROLLING_WALK_FORWARD 1 1 (1/2) (1/2) 1 1 0 0 1)
      [CalOp.upd ⟨1, 1, 1⟩, CalOp.upd ⟨1, 1, 0⟩, CalOp.thr 0,
        CalOp.upd ⟨1, 1, 0⟩] =
      { mode := MODE_ROLLING_WALK_FORWARD, window_size := 1
        trade_horizon := 1, grid_min := 1/2, grid_max := 1/2, grid_step := 1
        min_trades := 1, turnover_penalty_alpha := 0, ema_lambda := 0
        horizon_polls := 1, state := TRADING
        last_report := { theta_hat := none, score := .negInf,
                         score_adj := .negInf, n := 0, trade_rate := 0,
                         window_obs := 1, reason := "no_valid_candidate" }
        labeled_obs := [⟨0, 0⟩], pending_obs := [(0, 1)]
        theta_hat := some (1/2), theta_live := some (1/2)
        trade_polls_since_calibration := 0, attempt_count := 2
        polls_since_success := 1 } := by
  norm_num +decide [run_calibrator, Calibrator.init, Calibrator.update,
    Calibrator.current_threshold, observe_snapshot,
    update_rolling_walk_forward, attempt_calibration, threshold_grid_half,
    calibrate_ok_example, calibrate_nvc_example, safe_mid, dequePush,
    WARMUP, CALIBRATING, TRADING, MODE_WARMUP_THEN_TRADE,
    MODE_ROLLING_WALK_FORWARD]

/-- C2 (counterexample): after the concrete rolling run of
`rolling_trace_eval`, the polls counter is 0 although exactly one poll has
been counted since the last *successful* calibration (the counter was reset
by a failed recalibration attempt), so the counter does not measure polls
since the last successful calibration. -/
theorem rolling_counter_cex :
    (run_calibrator (fun x => x)
      (Calibrator.init MODE_ROLLING_WALK_FORWARD 1 1 (1/2) (1/2) 1 1 0 0 1)
      [CalOp.upd ⟨1, 1, 1⟩, CalOp.upd ⟨1, 1, 0⟩, CalOp.thr 0,
        CalOp.upd ⟨1, 1, 0⟩]).trade_polls_since_calibration = 0 ∧
    (run_calibrator (fun x => x)
      (Calibrator.init MODE_ROLLING_WALK_FORWARD 1 1 (1/2) (1/2) 1 1 0 0 1)
      [CalOp.upd ⟨1, 1, 1⟩, CalOp.upd ⟨1, 1, 0⟩, CalOp.thr 0,
        CalOp.upd ⟨1, 1, 0⟩]).polls_since_success = 1 ∧
    (run_calibrator (fun x => x)
      (Calibrator.init MODE_ROLLING_WALK_FORWARD 1 1 (1/2) (1/2) 1 1 0 0 1)
      [CalOp.upd ⟨1, 1, 1⟩, CalOp.upd ⟨1, 1, 0⟩, CalOp.thr 0,
        CalOp.upd ⟨1, 1, 0⟩]).trade_polls_since_calibration ≠
    (run_calibrator (fun x => x)
      (Calibrator.init MODE_ROLLING_WALK_FORWARD 1 1 (1/2) (1/2) 1 1 0 0 1)
      [CalOp.upd ⟨1, 1, 1⟩, CalOp.upd ⟨1, 1, 0⟩, CalOp.thr 0,
        CalOp.upd ⟨1, 1, 0⟩]).polls_since_success ∧
    (run_calibrator (fun x => x)
      (Calibrator.init MODE_ROLLING_WALK_FORWARD 1 1 (1/2) (1/2) 1 1 0 0 1)
      [CalOp.upd ⟨1, 1, 1⟩, CalOp.upd ⟨1, 1, 0⟩, CalOp.thr 0,
        CalOp.upd ⟨1, 1, 0⟩]).attempt_count = 2 ∧
    (run_calibrator (fun x => x)
      (Calibrator.init MODE_ROLLING_WALK_FORWARD 1 1 (1/2) (1/2) 1 1 0 0 1)
      [CalOp.upd ⟨1, 1, 1⟩, CalOp.upd ⟨1, 1, 0⟩, CalOp.thr 0,
        CalOp.upd ⟨1, 1, 0⟩]).last_report.reason = "no_valid_candidate" := by
  rw [rolling_trace_eval]
  exact ⟨rfl, rfl, by decide, rfl, rfl⟩

end LOBI
